import Mathlib

/-!
# Verification of the manifest apply engine (`manifest/provider/apply.go`)

This file gives a shallow embedding of `RawProviderServer.ApplyResourceChange`
from `manifest/provider/apply.go` and proves properties of it.

The embedding strategy:

* the `tftypes` value model (typed value trees with Null / Unknown / Known
  nodes, attribute paths, `Transform`, `WalkAttributePath`) is modelled
  concretely, following the semantics described in the specification's
  Value Tree Model / Normalizer / Path sections;
* every external collaborator (schema discovery, REST mapping, the dynamic
  store client, payload conversion, the completion waiter) is a parameter of
  the engine, collected in an `Env` record of oracle functions, so theorems
  quantify over all collaborator behaviours;
* the engine itself (`applyResourceChange` below) is a line-by-line
  translation of the Go function's control flow; besides the protocol
  response it also returns the trace of store operations it issued
  (`Get` / `Patch` / `Delete`) and the final state of the type-discovery
  cache (`OAPIFoundry`), so that frame effects are provable.
-/

namespace KubeApply

/-- One step of a `tftypes.AttributePath`: an attribute-name selector, a
map-element-key selector, or a list-index selector. -/
inductive PathStep where
  | attributeName (s : String)
  | elementKeyString (s : String)
  | elementKeyInt (n : Int)
deriving DecidableEq

/-- An attribute path is an ordered sequence of steps
(`tftypes.AttributePath`). -/
abbrev APath := List PathStep

/-- Canonical rendering of one path step, as in
`tftypes.AttributePath.String()`. -/
def PathStep.render : PathStep → String
  | .attributeName s => "AttributeName(\"" ++ s ++ "\")"
  | .elementKeyString s => "ElementKeyString(\"" ++ s ++ "\")"
  | .elementKeyInt n => "ElementKeyInt(" ++ toString n ++ ")"

/-- Canonical rendering of an attribute path (dot-joined step renderings),
as in `tftypes.AttributePath.String()`; this string is the key of the
computed-field map. -/
def renderPath (p : APath) : String :=
  String.intercalate "." (p.map PathStep.render)

/-- The type side of the value model (`tftypes.Type`): primitives plus
object / list / map containers, and the dynamic pseudo-type. -/
inductive TfType where
  | str
  | num
  | bool
  | dyn
  | obj (attrs : List (String × TfType))
  | list (elem : TfType)
  | mapT (elem : TfType)

/-- The value side of the value model (`tftypes.Value`): every node is
Null, Unknown, or Known; a Known node is a scalar or a container of child
values. Null and Unknown carry their type. -/
inductive TfValue where
  | null (ty : TfType)
  | unknown (ty : TfType)
  | str (s : String)
  | num (n : Int)
  | bool (b : Bool)
  | obj (attrs : List (String × TfValue))
  | list (elem : TfType) (elems : List TfValue)
  | mapV (elem : TfType) (entries : List (String × TfValue))

/-- Translation of `tftypes.Value.IsNull`. -/
def TfValue.isNull : TfValue → Bool
  | .null _ => true
  | _ => false

/-- Translation of `tftypes.Value.IsKnown`: only Unknown nodes are not known
(Null nodes count as known). -/
def TfValue.isKnown : TfValue → Bool
  | .unknown _ => false
  | _ => true

/-- A Known container node (object / list / map). -/
def TfValue.isKnownContainer : TfValue → Bool
  | .obj _ => true
  | .list _ _ => true
  | .mapV _ _ => true
  | _ => false

mutual

/-- Translation of `tftypes.Value.Type()`: the type of a value. -/
def TfValue.type : TfValue → TfType
  | .null ty => ty
  | .unknown ty => ty
  | .str _ => .str
  | .num _ => .num
  | .bool _ => .bool
  | .obj attrs => .obj (attrTypes attrs)
  | .list et _ => .list et
  | .mapV et _ => .mapT et

/-- Types of an object's attributes. -/
def attrTypes : List (String × TfValue) → List (String × TfType)
  | [] => []
  | (k, v) :: rest => (k, v.type) :: attrTypes rest

end

/-- First-match lookup in an association list (Go map read, with string
keys). -/
def assocFind (k : String) : List (String × α) → Option α
  | [] => none
  | (k', v) :: rest => if k' = k then some v else assocFind k rest

/-- Key-replacing insertion into an association list (Go map write). -/
def assocUpsert (k : String) (v : α) : List (String × α) → List (String × α)
  | [] => [(k, v)]
  | (k', v') :: rest =>
    if k' = k then (k, v) :: rest else (k', v') :: assocUpsert k v rest

/-- Membership of a key (Go `_, ok := m[k]`). -/
def hasKey (l : List (String × α)) (k : String) : Bool :=
  (assocFind k l).isSome

/-- Positional element access in a list. -/
def nthElem : List α → Nat → Option α
  | [], _ => none
  | a :: _, 0 => some a
  | _ :: as, n + 1 => nthElem as n

/-- Applying one path step to a value
(`tftypes.Value.ApplyTerraform5AttributePathStep`): attribute names select
into Known objects, string keys into Known maps, integer keys into Known
lists; every other combination (including stepping into Null or Unknown)
fails. -/
def applyStep : TfValue → PathStep → Option TfValue
  | .obj attrs, .attributeName k => assocFind k attrs
  | .mapV _ entries, .elementKeyString k => assocFind k entries
  | .list _ elems, .elementKeyInt n =>
    if n < 0 then none else nthElem elems n.toNat
  | _, _ => none

/-- Total lookup of a path in a value tree. -/
def lookupPath (v : TfValue) : APath → Option TfValue
  | [] => some v
  | s :: rest =>
    match applyStep v s with
    | some v' => lookupPath v' rest
    | none => none

/-- Modelled from the spec: `tftypes.WalkAttributePath` (the Path
component's structural lookup, not part of `src/`). It resolves a path
step by step; on the first failing step it returns the unconsumed steps
(the failing step included), which is how the caller distinguishes
"attribute not in manifest". -/
def walkPath (v : TfValue) : APath → Except APath TfValue
  | [] => .ok v
  | s :: rest =>
    match applyStep v s with
    | some v' => walkPath v' rest
    | none => .error (s :: rest)

mutual

/-- Modelled from the spec: `tftypes.Transform` (the tree-transform driver
used by the Computed-Field Resolver; not part of `src/`). It walks the
value tree depth-first: the children of a Known container are transformed
first (with the path extended by the corresponding step), then the callback
is applied to the rebuilt node; Null, Unknown and scalar nodes are passed
to the callback directly. The first callback failure aborts the whole
transform. -/
def transform (f : APath → TfValue → Except String TfValue) (p : APath) :
    TfValue → Except String TfValue
  | .obj attrs =>
    match transformAttrs f p attrs with
    | .error e => .error e
    | .ok attrs' => f p (.obj attrs')
  | .list et elems =>
    match transformElems f p 0 elems with
    | .error e => .error e
    | .ok elems' => f p (.list et elems')
  | .mapV et entries =>
    match transformEntries f p et entries with
    | .error e => .error e
    | .ok entries' => f p (.mapV et entries')
  | v => f p v

/-- Transform of the attribute list of an object node. -/
def transformAttrs (f : APath → TfValue → Except String TfValue) (p : APath) :
    List (String × TfValue) → Except String (List (String × TfValue))
  | [] => .ok []
  | (k, v) :: rest =>
    match transform f (p ++ [.attributeName k]) v with
    | .error e => .error e
    | .ok v' =>
      match transformAttrs f p rest with
      | .error e => .error e
      | .ok rest' => .ok ((k, v') :: rest')

/-- Transform of the elements of a list node, tracking the running index. -/
def transformElems (f : APath → TfValue → Except String TfValue) (p : APath)
    (i : Nat) : List TfValue → Except String (List TfValue)
  | [] => .ok []
  | v :: rest =>
    match transform f (p ++ [.elementKeyInt (Int.ofNat i)]) v with
    | .error e => .error e
    | .ok v' =>
      match transformElems f p (i + 1) rest with
      | .error e => .error e
      | .ok rest' => .ok (v' :: rest')

/-- Transform of the entries of a map node. -/
def transformEntries (f : APath → TfValue → Except String TfValue) (p : APath)
    (et : TfType) : List (String × TfValue) → Except String (List (String × TfValue))
  | [] => .ok []
  | (k, v) :: rest =>
    match transform f (p ++ [.elementKeyString k]) v with
    | .error e => .error e
    | .ok v' =>
      match transformEntries f p et rest with
      | .error e => .error e
      | .ok rest' => .ok ((k, v') :: rest')

end

mutual

/-- Modelled from the spec: `morph.UnknownToNull` (the Normalizer's
`CollapseUnknownToNull`, not part of `src/`): every Unknown node
(recursively) becomes Null; Known nodes are walked but otherwise
unchanged; a total function. -/
def unknownToNull : TfValue → TfValue
  | .unknown ty => .null ty
  | .null ty => .null ty
  | .str s => .str s
  | .num n => .num n
  | .bool b => .bool b
  | .obj attrs => .obj (unknownToNullAttrs attrs)
  | .list et elems => .list et (unknownToNullElems elems)
  | .mapV et entries => .mapV et (unknownToNullAttrs entries)

/-- Mapping `unknownToNull` over keyed children. -/
def unknownToNullAttrs : List (String × TfValue) → List (String × TfValue)
  | [] => []
  | (k, v) :: rest => (k, unknownToNull v) :: unknownToNullAttrs rest

/-- Mapping `unknownToNull` over list elements. -/
def unknownToNullElems : List TfValue → List TfValue
  | [] => []
  | v :: rest => unknownToNull v :: unknownToNullElems rest

end

/-- Translation of `tftypes.Value.As(&map[string]tftypes.Value)` as used at lines 61-62
and 313-314 of `apply.go`: Unknown cannot be unmarshalled; Null yields the
empty map; a Known object or map yields its entries; scalars and lists
fail. -/
def tfAsObjMap : TfValue → Except String (List (String × TfValue))
  | .unknown _ => .error "unmarshaling unknown values is not supported"
  | .null _ => .ok []
  | .obj attrs => .ok attrs
  | .mapV _ entries => .ok entries
  | _ => .error "can't unmarshal into map[string]tftypes.Value"

/-- Translation of `tftypes.Value.As(&string)` as used for `computed_fields` elements:
Unknown fails, Null yields the empty string, a Known string yields itself,
anything else fails. -/
def tfAsString : TfValue → Except String String
  | .str s => .ok s
  | .null _ => .ok ""
  | .unknown _ => .error "unmarshaling unknown values is not supported"
  | _ => .error "can't unmarshal into string"

/-- Translation of `tftypes.Value.As(&[]tftypes.Value)` with its error ignored, as at line
78 of `apply.go`: a Known list yields its elements; any failure leaves the
slice empty. -/
def tfElems : TfValue → List TfValue
  | .list _ elems => elems
  | _ => []

/-- Diagnostic severity (`tfprotov5.DiagnosticSeverity`). -/
inductive Severity where
  | error
  | warning
deriving DecidableEq

/-- A protocol diagnostic (`tfprotov5.Diagnostic`): severity, summary,
detail. -/
structure Diagnostic where
  severity : Severity
  summary : String
  detail : String := ""
deriving DecidableEq

/-- An error-severity diagnostic with the given summary and detail. -/
def errDiag (s d : String) : Diagnostic :=
  { severity := .error, summary := s, detail := d }

/-- An opaque serialized protocol value (`tfprotov5.DynamicValue`). -/
structure DynamicValue where
  raw : String
deriving DecidableEq

/-- An opaque untyped store object (Go `map[string]interface{}` /
`unstructured.Unstructured`). -/
structure Payload where
  tag : String
deriving DecidableEq

/-- An opaque JSON document (`uo.MarshalJSON()` output). -/
structure JsonDoc where
  body : String
deriving DecidableEq

/-- One cause inside a structured API error status
(`metav1.StatusCause`). -/
structure StatusCause where
  message : String
  field : String
deriving DecidableEq

/-- A structured API error status (`metav1.Status`), as carried by an
error satisfying `apierrors.APIStatus`. -/
structure ApiStatus where
  message : String
  causes : List StatusCause
deriving DecidableEq

/-- Outcome of the store's `Get` call. -/
inductive GetOutcome where
  | found (obj : Payload)
  | errNotFound (msg : String)
  | errOther (msg : String)
deriving DecidableEq

/-- Outcome of the store's server-side-apply `Patch` call: success, a
failure carrying a structured API status, or a failure without one. -/
inductive PatchOutcome where
  | applied (result : Payload)
  | errStructured (status : ApiStatus)
  | errGeneric (msg : String)
deriving DecidableEq

/-- Outcome of the store's `Delete` call; not-found errors are
distinguished so that theorems can show the engine does not treat them
specially. -/
inductive DeleteOutcome where
  | deleted
  | errNotFound (msg : String)
  | errOther (msg : String)
deriving DecidableEq

/-- A store operation issued by the engine, with the resource handle it
was issued against (`some namespace` for a namespaced handle, `none` for a
cluster-scoped one). These are the only three transport calls made by
`ApplyResourceChange`. -/
inductive StoreOp where
  | get (ns : Option String) (name : String)
  | patch (ns : Option String) (name : String) (payload : JsonDoc)
  | delete (ns : Option String) (name : String)
deriving DecidableEq

/-- Whether a store operation is a `Delete`. -/
def StoreOp.isDelete : StoreOp → Bool
  | .delete _ _ => true
  | _ => false

/-- Whether a store operation is a `Patch` (a write). -/
def StoreOp.isPatch : StoreOp → Bool
  | .patch _ _ _ => true
  | _ => false

/-- Whether a store operation is a `Get` (a read). -/
def StoreOp.isGet : StoreOp → Bool
  | .get _ _ => true
  | _ => false

/-- The protocol response (`tfprotov5.ApplyResourceChangeResponse`):
diagnostics plus an optional new state. -/
structure ApplyResponse where
  diagnostics : List Diagnostic
  newState : Option DynamicValue
deriving DecidableEq

/-- The full observable result of one `ApplyResourceChange` call: the
response, the Go `error` return value, the ordered trace of store
operations issued, and the final value of the server's `OAPIFoundry`
type-discovery cache field. -/
structure ApplyResult where
  resp : ApplyResponse
  goErr : Option String
  trace : List StoreOp
  foundry : Option Unit
deriving DecidableEq

/-- The request (`tfprotov5.ApplyResourceChangeRequest`): a type name and
two serialized states. -/
structure ApplyRequest where
  typeName : String
  priorState : DynamicValue
  plannedState : DynamicValue

/-- All external collaborators of `ApplyResourceChange`, as oracle
functions: schema discovery, REST mapping, payload conversion, the store
client, and the completion waiter. Theorems quantify over `Env`, so they
hold for every collaborator behaviour. -/
structure Env where
  /-- Outcome of `s.canExecute()`. -/
  canExecuteDiags : List Diagnostic
  /-- Outcome of `GetResourceType(req.TypeName)`. -/
  getResourceType : String → Except String TfType
  /-- Outcome of `DynamicValue.Unmarshal(rt)` for both states. -/
  unmarshal : DynamicValue → TfType → Except String TfValue
  /-- Outcome of `FieldPathToTftypesPath` for `computed_fields` entries. -/
  parseFieldPath : String → Except String APath
  /-- Outcome of `s.getDynamicClient()`. -/
  dynamicClient : Except String Unit
  /-- Outcome of `s.getRestMapper()`. -/
  restMapper : Except String Unit
  /-- Outcome of `GVKFromTftypesObject(&obj, m)`; a GVK is kept opaque as a string. -/
  gvkFromObject : TfValue → Except String String
  /-- Outcome of `s.TFTypeFromOpenAPI(ctx, gvk, b)`; `b = false` yields the schema
  variant used for the write payload and the final state, `b = true` the
  variant handed to the completion waiter. -/
  tfTypeFromOpenAPI : String → Bool → Except String TfType
  /-- Outcome of `morph.ValueToType` — the Value Bridge coercion used by the
  computed-field backfill. -/
  valueToType : TfValue → TfType → Except String TfValue
  /-- Outcome of `payload.FromTFValue` — typed tree to untyped object. -/
  fromTFValue : TfValue → Except String Payload
  /-- Outcome of `mapRemoveNulls` — strips explicit-null entries from the payload. -/
  mapRemoveNulls : Payload → Payload
  /-- Outcome of `uo.GetNamespace()`. -/
  namespaceOf : Payload → String
  /-- Outcome of `uo.GetName()`. -/
  nameOf : Payload → String
  /-- Outcome of `GVRFromUnstructured(&uo, m)`; a GVR is kept opaque as a string. -/
  gvrFromUnstructured : Payload → Except String String
  /-- Outcome of `IsResourceNamespaced(gvk, m)`. -/
  isNamespaced : String → Except String Bool
  /-- Store `Get`, keyed by handle and name. -/
  getOutcome : Option String → String → GetOutcome
  /-- Outcome of `uo.MarshalJSON()`. -/
  marshalJSON : Payload → Except String JsonDoc
  /-- Store server-side-apply `Patch`, keyed by handle, name and body. -/
  patchOutcome : Option String → String → JsonDoc → PatchOutcome
  /-- Store `Delete`, keyed by handle and name. -/
  deleteOutcome : Option String → String → DeleteOutcome
  /-- Outcome of `RemoveServerSideFields` — strips store bookkeeping fields. -/
  removeServerSideFields : Payload → Payload
  /-- Outcome of `payload.ToTFValue` — untyped object to typed tree. -/
  toTFValue : Payload → TfType → Except String TfValue
  /-- The completion waiter's verdict for a wait specification, handle,
  name and wait-schema type: `none` is success, `some base` a failure
  described by `base`. -/
  waitResult : TfValue → Option String → String → TfType → Option String
  /-- Outcome of `morph.DeepUnknown` — the Normalizer's `ExpandToUnknown`. -/
  deepUnknown : TfType → TfValue → Except String TfValue
  /-- Outcome of `tftypes.NewValue` + `tfprotov5.NewDynamicValue` over the final
  attribute map. -/
  newDynamicValue : List (String × TfValue) → Except String DynamicValue

/-- The note a completion-wait failure carries about the already-applied
write: the resource is in the store even though the call reports an
error. -/
def waiterExistsNotice : String :=
  "; the resource was applied to the store but the completion condition was not met"

/-- Modelled from the spec: `s.waitForCompletion` (the Completion Waiter
collaborator, not part of `src/`). Per the spec its failure must make
explicit that the already-applied write is not rolled back, so a failure
verdict `base` becomes the error message `base ++ waiterExistsNotice`. -/
def waitForCompletion (verdict : Option String) : Except String Unit :=
  match verdict with
  | none => .ok ()
  | some base => .error (base ++ waiterExistsNotice)

/-- Modelled from the spec: `APIStatusErrorToDiagnostics` (not part of
`src/`): a structured store error is translated into one error diagnostic
per status detail (cause), carrying the cause's message as summary and its
field as detail. -/
def APIStatusErrorToDiagnostics (st : ApiStatus) : List Diagnostic :=
  st.causes.map fun c => { severity := .error, summary := c.message, detail := c.field }

/-- The generic fallback summary used when a write failure carries no
structured status (line 272 of `apply.go`). -/
def genericPatchSummary (rnn : String) : String :=
  "PATCH for resource \"" ++ rnn ++ "\" failed to apply"

/-- The computed-field backfill callback: the literal translation of the
closure passed to `tftypes.Transform` at lines 157-178 of `apply.go`.
`computedFields` is the computed-field map (keyed by rendered path),
`manifest` is `plannedStateVal["manifest"]`, and `coerce` is
`morph.ValueToType`. -/
def backfillCallback (computedFields : List (String × APath)) (manifest : TfValue)
    (coerce : TfValue → TfType → Except String TfValue)
    (ap : APath) (v : TfValue) : Except String TfValue :=
  if hasKey computedFields (renderPath ap) then
    if v.isKnown then .ok v
    else
      match walkPath manifest ap with
      | .error restPath =>
        if restPath.length > 0 then
          -- attribute not in manifest
          .ok v
        else .error (renderPath ap ++ ": attribute not present in value")
      | .ok ppMan =>
        match coerce ppMan v.type with
        | .error e => .error (renderPath ap ++ ": " ++ e)
        | .ok nv => .ok nv
  else .ok v

/-- Reading `plannedStateVal["manifest"]` as done by the backfill closure; a
missing key yields Go's zero `tftypes.Value`, into which every walk
fails, modelled as a Null dynamic value. -/
def manifestOf (plannedStateVal : List (String × TfValue)) : TfValue :=
  (assocFind "manifest" plannedStateVal).getD (.null .dyn)

/-- The whole computed-field backfill step (line 157 of `apply.go`):
`tftypes.Transform` driven by `backfillCallback` over the planned
`object`, with the manifest read from the planned state. -/
def backfillComputedFields (computedFields : List (String × APath))
    (plannedStateVal : List (String × TfValue))
    (coerce : TfValue → TfType → Except String TfValue)
    (obj : TfValue) : Except String TfValue :=
  transform (backfillCallback computedFields (manifestOf plannedStateVal) coerce) [] obj

/-- The built-in default computed-field set (lines 99-104 of `apply.go`):
`metadata.annotations` and `metadata.labels`, keyed by their rendered
paths. -/
def defaultComputedFields : List (String × APath) :=
  let p1 : APath := [.attributeName "metadata", .attributeName "annotations"]
  let p2 : APath := [.attributeName "metadata", .attributeName "labels"]
  assocUpsert (renderPath p2) p2 (assocUpsert (renderPath p1) p1 [])

/-- The loop over `computed_fields` elements (lines 79-97 of `apply.go`):
an element that cannot be read as a string is skipped with only a log; an
element whose path fails to parse appends an error diagnostic and
continues; a parsed path is inserted into the map keyed by its rendered
form. -/
def cfLoop (parse : String → Except String APath) :
    List TfValue → List (String × APath) → List Diagnostic →
    List (String × APath) × List Diagnostic
  | [], acc, ds => (acc, ds)
  | v :: rest, acc, ds =>
    match tfAsString v with
    | .error _ => cfLoop parse rest acc ds
    | .ok vs =>
      match parse vs with
      | .error e =>
        cfLoop parse rest acc
          (ds ++ [errDiag ("[computed_fields] cannot parse filed path element: " ++ vs) e])
      | .ok atp => cfLoop parse rest (assocUpsert (renderPath atp) atp acc) ds

/-- Extraction of the computed-field configuration (lines 72-105 of
`apply.go`): if `computed_fields` is present, non-null and known, its
elements are parsed by `cfLoop`; otherwise the built-in default set is
used. -/
def extractComputedFields (parse : String → Except String APath)
    (plannedStateVal : List (String × TfValue)) :
    List (String × APath) × List Diagnostic :=
  match assocFind "computed_fields" plannedStateVal with
  | some cfVal =>
    if !cfVal.isNull && cfVal.isKnown then
      cfLoop parse (tfElems cfVal) [] []
    else
      (defaultComputedFields, [])
  | none => (defaultComputedFields, [])


/-- Lines 250-310 of `apply.go`: serialize the payload, issue the
server-side-apply `Patch`, translate a write failure into diagnostics,
convert the response back to typed form, run the completion waiter if a
`wait_for` specification is present, expand the response to Unknown-filled
shape and collapse it for the final state. `trace0` is the trace
accumulated by the create guard. -/
def applyWrite (env : Env) (fy : Option Unit)
    (psv : List (String × TfValue)) (ds : List Diagnostic)
    (tsch : TfType) (gvk : String) (rqObj : Payload)
    (handle : Option String) (rname rnn : String)
    (trace0 : List StoreOp) : ApplyResult :=
  match env.marshalJSON rqObj with
  | .error e =>
    { resp := { diagnostics := ds ++ [errDiag ("Failed to marshall resource '" ++ rnn ++ "' to JSON") e], newState := none },
      goErr := none, trace := trace0, foundry := fy }
  | .ok jsonManifest =>
  match env.patchOutcome handle rname jsonManifest with
  | .errStructured st =>
    { resp := { diagnostics := ds ++ APIStatusErrorToDiagnostics st, newState := none },
      goErr := none, trace := trace0 ++ [.patch handle rname jsonManifest], foundry := fy }
  | .errGeneric m =>
    { resp := { diagnostics := ds ++ [errDiag (genericPatchSummary rnn) m], newState := none },
      goErr := none, trace := trace0 ++ [.patch handle rname jsonManifest], foundry := fy }
  | .applied result =>
  match env.toTFValue (env.removeServerSideFields result) tsch with
  | .error e =>
    { resp := { diagnostics := ds, newState := none },
      goErr := some e, trace := trace0 ++ [.patch handle rname jsonManifest], foundry := fy }
  | .ok newResObject =>
  match env.tfTypeFromOpenAPI gvk true with
  | .error e =>
    { resp := { diagnostics := ds, newState := none },
      goErr := some ("failed to determine resource type ID: " ++ e),
      trace := trace0 ++ [.patch handle rname jsonManifest], foundry := fy }
  | .ok wt =>
  match
    (match assocFind "wait_for" psv with
     | some wf => waitForCompletion (env.waitResult wf handle rname wt)
     | none => .ok ()) with
  | .error e =>
    { resp := { diagnostics := ds, newState := none },
      goErr := some e, trace := trace0 ++ [.patch handle rname jsonManifest], foundry := fy }
  | .ok _ =>
  match env.deepUnknown tsch newResObject with
  | .error e =>
    { resp := { diagnostics := ds, newState := none },
      goErr := some e, trace := trace0 ++ [.patch handle rname jsonManifest], foundry := fy }
  | .ok compObj =>
  match env.newDynamicValue (assocUpsert "object" (unknownToNull compObj) psv) with
  | .error e =>
    { resp := { diagnostics := ds, newState := none },
      goErr := some e, trace := trace0 ++ [.patch handle rname jsonManifest], foundry := fy }
  | .ok newResState =>
    { resp := { diagnostics := ds, newState := some newResState },
      goErr := none, trace := trace0 ++ [.patch handle rname jsonManifest],
      foundry := none }

/-- Lines 228-248 of `apply.go`: the create-path existence check. The
resource is fetched by name; success is a conflict, a non-not-found error
aborts, and only a not-found error lets the write proceed (with the `Get`
recorded ahead of it in the trace). -/
def createGuard (env : Env) (fy : Option Unit)
    (psv : List (String × TfValue)) (ds : List Diagnostic)
    (tsch : TfType) (gvk : String) (rqObj : Payload)
    (handle : Option String) (rname rnn : String) : ApplyResult :=
  match env.getOutcome handle rname with
  | .found _ =>
    { resp := { diagnostics := ds ++ [errDiag "Cannot create resource that already exists" ("resource \"" ++ rnn ++ "\" already exists")], newState := none },
      goErr := none, trace := [.get handle rname], foundry := fy }
  | .errOther m =>
    { resp := { diagnostics := ds ++ [errDiag ("Failed to determine if resource \"" ++ rnn ++ "\" exists") m], newState := none },
      goErr := none, trace := [.get handle rname], foundry := fy }
  | .errNotFound _ =>
    applyWrite env fy psv ds tsch gvk rqObj handle rname rnn [.get handle rname]

/-- Lines 129-310 of `apply.go`: the Apply (create / update) case of the
switch. `priorIsNull` is `applyPriorState.IsNull()`, which gates the
existence check. -/
def applyBranchRun (env : Env) (fy : Option Unit)
    (psv : List (String × TfValue)) (cf : List (String × APath))
    (ds : List Diagnostic) (priorIsNull : Bool) : ApplyResult :=
  match assocFind "object" psv with
  | none =>
    { resp := { diagnostics := ds ++ [errDiag "Failed to find object value in planned resource state" ""], newState := none },
      goErr := none, trace := [], foundry := fy }
  | some obj =>
  match env.gvkFromObject obj with
  | .error e =>
    { resp := { diagnostics := ds, newState := none },
      goErr := some ("failed to determine resource GVK: " ++ e),
      trace := [], foundry := fy }
  | .ok gvk =>
  match env.tfTypeFromOpenAPI gvk false with
  | .error e =>
    { resp := { diagnostics := ds, newState := none },
      goErr := some ("failed to determine resource type ID: " ++ e),
      trace := [], foundry := fy }
  | .ok tsch =>
  match backfillComputedFields cf psv env.valueToType obj with
  | .error e =>
    { resp := { diagnostics := ds ++ [errDiag "Failed to backfill computed values in proposed object" e], newState := none },
      goErr := none, trace := [], foundry := fy }
  | .ok obj2 =>
  match env.fromTFValue (unknownToNull obj2) with
  | .error e =>
    { resp := { diagnostics := ds, newState := none },
      goErr := some e, trace := [], foundry := fy }
  | .ok pu =>
  let rqObj := env.mapRemoveNulls pu
  let rnamespace := env.namespaceOf rqObj
  let rname := env.nameOf rqObj
  let rnn := rnamespace ++ "/" ++ rname
  match env.gvrFromUnstructured rqObj with
  | .error e =>
    { resp := { diagnostics := ds, newState := none },
      goErr := some ("failed to determine resource GVR: " ++ e),
      trace := [], foundry := fy }
  | .ok _ =>
  match env.isNamespaced gvk with
  | .error e =>
    { resp := { diagnostics := ds ++ [errDiag ("Failed to discover scope of resource '" ++ rnn ++ "'") e], newState := none },
      goErr := none, trace := [], foundry := fy }
  | .ok nsb =>
  let handle : Option String := if nsb then some rnamespace else none
  if priorIsNull then
    createGuard env fy psv ds tsch gvk rqObj handle rname rnn
  else
    applyWrite env fy psv ds tsch gvk rqObj handle rname rnn []

/-- Lines 311-373 of `apply.go`: the Delete case of the switch. -/
def deleteBranchRun (env : Env) (req : ApplyRequest) (fy : Option Unit)
    (ds : List Diagnostic) (applyPriorState : TfValue) : ApplyResult :=
  match tfAsObjMap applyPriorState with
  | .error e =>
    { resp := { diagnostics := ds ++ [errDiag "Failed to extract prior resource state values" e], newState := none },
      goErr := none, trace := [], foundry := fy }
  | .ok priorStateVal =>
  match assocFind "object" priorStateVal with
  | none =>
    { resp := { diagnostics := ds ++ [errDiag "Failed to find object value in prior resource state" ""], newState := none },
      goErr := none, trace := [], foundry := fy }
  | some pco =>
  match env.fromTFValue pco with
  | .error e =>
    { resp := { diagnostics := ds, newState := none },
      goErr := some e, trace := [], foundry := fy }
  | .ok pu =>
  match env.gvrFromUnstructured pu with
  | .error e =>
    { resp := { diagnostics := ds, newState := none },
      goErr := some e, trace := [], foundry := fy }
  | .ok _ =>
  match env.gvkFromObject pco with
  | .error e =>
    { resp := { diagnostics := ds, newState := none },
      goErr := some ("failed to determine resource GVK: " ++ e),
      trace := [], foundry := fy }
  | .ok gvk =>
  match env.isNamespaced gvk with
  | .error e =>
    { resp := { diagnostics := ds, newState := none },
      goErr := some e, trace := [], foundry := fy }
  | .ok nsb =>
  let rnamespace := env.namespaceOf pu
  let rname := env.nameOf pu
  let handle : Option String := if nsb then some rnamespace else none
  match env.deleteOutcome handle rname with
  | .errNotFound m =>
    { resp := { diagnostics := ds ++ [errDiag ("DELETE resource " ++ rnamespace ++ "/" ++ rname ++ " failed: " ++ m) m], newState := none },
      goErr := none, trace := [.delete handle rname], foundry := fy }
  | .errOther m =>
    { resp := { diagnostics := ds ++ [errDiag ("DELETE resource " ++ rnamespace ++ "/" ++ rname ++ " failed: " ++ m) m], newState := none },
      goErr := none, trace := [.delete handle rname], foundry := fy }
  | .deleted =>
    { resp := { diagnostics := ds, newState := some req.plannedState },
      goErr := none, trace := [.delete handle rname], foundry := none }

/-- The shallow embedding of `RawProviderServer.ApplyResourceChange`
(lines 20-380 of `apply.go`): the pre-branch pipeline (execution guard,
resource-type lookup, state unmarshalling, computed-field extraction,
client and mapper retrieval), the three-way switch on state nullness, and
the cache invalidation that only the switch's fall-through reaches. -/
def applyResourceChange (env : Env) (req : ApplyRequest) (fy : Option Unit) :
    ApplyResult :=
  if env.canExecuteDiags.length > 0 then
    { resp := { diagnostics := env.canExecuteDiags, newState := none },
      goErr := none, trace := [], foundry := fy }
  else
  match env.getResourceType req.typeName with
  | .error e =>
    { resp := { diagnostics := [errDiag "Failed to determine planned resource type" e], newState := none },
      goErr := none, trace := [], foundry := fy }
  | .ok rt =>
  match env.unmarshal req.plannedState rt with
  | .error e =>
    { resp := { diagnostics := [errDiag "Failed to unmarshal planned resource state" e], newState := none },
      goErr := none, trace := [], foundry := fy }
  | .ok applyPlannedState =>
  match env.unmarshal req.priorState rt with
  | .error e =>
    { resp := { diagnostics := [errDiag "Failed to unmarshal prior resource state" e], newState := none },
      goErr := none, trace := [], foundry := fy }
  | .ok applyPriorState =>
  match tfAsObjMap applyPlannedState with
  | .error e =>
    { resp := { diagnostics := [errDiag "Failed to extract planned resource state values" e], newState := none },
      goErr := none, trace := [], foundry := fy }
  | .ok plannedStateVal =>
  match extractComputedFields env.parseFieldPath plannedStateVal with
  | (computedFields, ds) =>
  match env.dynamicClient with
  | .error e =>
    { resp := { diagnostics := ds ++ [errDiag "Failed to retrieve Kubernetes dynamic client during apply" e], newState := none },
      goErr := none, trace := [], foundry := fy }
  | .ok _ =>
  match env.restMapper with
  | .error e =>
    { resp := { diagnostics := ds ++ [errDiag "Failed to retrieve Kubernetes RESTMapper client during apply" e], newState := none },
      goErr := none, trace := [], foundry := fy }
  | .ok _ =>
  if applyPriorState.isNull || (!applyPlannedState.isNull && !applyPriorState.isNull) then
    applyBranchRun env fy plannedStateVal computedFields ds applyPriorState.isNull
  else if applyPlannedState.isNull then
    deleteBranchRun env req fy ds applyPriorState
  else
    { resp := { diagnostics := ds, newState := none },
      goErr := none, trace := [], foundry := none }

/-! ## Concrete scenario material for witnesses and counterexamples -/

/-- A concrete resource schema type. -/
def rtObjType : TfType :=
  .obj [("computed_fields", .list .str), ("manifest", .dyn), ("object", .dyn), ("wait_for", .dyn)]

/-- A concrete planned `object` value: `metadata.name` known,
`metadata.annotations` Unknown (computed). -/
def sampleObj : TfValue :=
  .obj [("metadata", .obj [("name", .str "x"), ("annotations", .unknown (.mapT .str))])]

/-- A concrete user manifest carrying a value for the computed
`metadata.annotations` path. -/
def sampleManifest : TfValue :=
  .obj [("metadata", .obj [("annotations", .mapV .str [("a", .str "1")])])]

/-- A concrete unmarshalled planned state for the apply path. -/
def samplePlanned : TfValue :=
  .obj [("object", sampleObj), ("manifest", sampleManifest)]

/-- The `object` attribute of `samplePrior`. -/
def samplePriorObj : TfValue :=
  .obj [("metadata", .obj [("name", .str "x"), ("namespace", .str "ns")])]

/-- A planned state that additionally declares a completion condition
(`wait_for`). -/
def samplePlannedWait : TfValue :=
  .obj [("object", sampleObj), ("manifest", sampleManifest), ("wait_for", .str "rollout")]

/-- A planned state whose `computed_fields` list contains one entry that
fails to parse ("bad") followed by one that parses ("good"). -/
def samplePlannedCF : TfValue :=
  .obj [("object", sampleObj), ("manifest", sampleManifest),
    ("computed_fields", .list .str [.str "bad", .str "good"])]

/-- A concrete unmarshalled prior state for the delete path. -/
def samplePrior : TfValue :=
  .obj [("object", samplePriorObj)]

/-- A deserialization oracle keyed on the raw bytes: `"null"` unmarshals
to a Null state, `"planned"` to `samplePlanned`, `"prior"` to
`samplePrior`. -/
def sampleUnmarshal (dv : DynamicValue) (_ : TfType) : Except String TfValue :=
  if dv.raw = "planned" then .ok samplePlanned
  else if dv.raw = "plannedWait" then .ok samplePlannedWait
  else if dv.raw = "plannedCF" then .ok samplePlannedCF
  else if dv.raw = "prior" then .ok samplePrior
  else .ok (.null rtObjType)

/-- An all-success collaborator environment used as the base of the
concrete scenarios. -/
def baseEnv : Env where
  canExecuteDiags := []
  getResourceType := fun _ => .ok rtObjType
  unmarshal := sampleUnmarshal
  parseFieldPath := fun s =>
    if s = "bad" then .error "invalid field path" else .ok [.attributeName s]
  dynamicClient := .ok ()
  restMapper := .ok ()
  gvkFromObject := fun _ => .ok "apps/v1/Deployment"
  tfTypeFromOpenAPI := fun _ b => .ok (if b then .dyn else rtObjType)
  valueToType := fun v _ => .ok v
  fromTFValue := fun _ => .ok { tag := "payload" }
  mapRemoveNulls := fun p => p
  namespaceOf := fun _ => "ns"
  nameOf := fun _ => "x"
  gvrFromUnstructured := fun _ => .ok "apps/v1/deployments"
  isNamespaced := fun _ => .ok true
  getOutcome := fun _ _ => .errNotFound "not found"
  marshalJSON := fun p => .ok { body := p.tag }
  patchOutcome := fun _ _ _ => .applied { tag := "result" }
  deleteOutcome := fun _ _ => .deleted
  removeServerSideFields := fun p => p
  toTFValue := fun _ _ => .ok (.obj [("metadata", .obj [("name", .str "x")])])
  waitResult := fun _ _ _ _ => none
  deepUnknown := fun _ v => .ok v
  newDynamicValue := fun _ => .ok { raw := "newstate" }

/-- A create request: prior Null, planned known. -/
def createReq : ApplyRequest :=
  { typeName := "kubernetes_manifest", priorState := { raw := "null" }, plannedState := { raw := "planned" } }

/-- An update request: both states known. -/
def updateReq : ApplyRequest :=
  { typeName := "kubernetes_manifest", priorState := { raw := "prior" }, plannedState := { raw := "planned" } }

/-- A delete request: prior known, planned Null. -/
def deleteReq : ApplyRequest :=
  { typeName := "kubernetes_manifest", priorState := { raw := "prior" }, plannedState := { raw := "null" } }

/-- A no-op request: both states Null. -/
def noopReq : ApplyRequest :=
  { typeName := "kubernetes_manifest", priorState := { raw := "null" }, plannedState := { raw := "null" } }


/-- A collaborator environment whose store `Delete` always fails. -/
def envDeleteFail : Env :=
  { baseEnv with deleteOutcome := fun _ _ => .errOther "store unavailable" }

/-- A collaborator environment whose store `Get` finds an existing
object (create-conflict scenario). -/
def envGetFound : Env :=
  { baseEnv with getOutcome := fun _ _ => .found { tag := "existing" } }

/-- Value of `sampleObj` after the computed-field backfill: the Unknown
`metadata.annotations` replaced by the manifest's value. -/
def sampleObjBackfilled : TfValue :=
  .obj [("metadata", .obj [("name", .str "x"), ("annotations", .mapV .str [("a", .str "1")])])]

/-- A concrete structured API error status with two causes. -/
def sampleStatus : ApiStatus :=
  { message := "the object has been modified",
    causes := [{ message := "spec.replicas: invalid value", field := "spec.replicas" },
               { message := "metadata.labels: forbidden", field := "metadata.labels" }] }

/-- A collaborator environment whose store `Patch` fails with the
two-cause structured status. -/
def envPatchStructured : Env :=
  { baseEnv with patchOutcome := fun _ _ _ => .errStructured sampleStatus }

/-- An update request whose planned state declares a completion
condition. -/
def waitReq : ApplyRequest :=
  { typeName := "kubernetes_manifest", priorState := { raw := "prior" }, plannedState := { raw := "plannedWait" } }

/-- A collaborator environment whose completion waiter fails. -/
def envWaitFail : Env :=
  { baseEnv with waitResult := fun _ _ _ _ => some "timed out" }

/-- An update request whose planned state carries the partly-bad
`computed_fields` list. -/
def cfReq : ApplyRequest :=
  { typeName := "kubernetes_manifest", priorState := { raw := "prior" }, plannedState := { raw := "plannedCF" } }

/-- Two values have the same node shape: same container kind, same keys
(in order) for objects and maps, same element type and length for lists.
Used to state that the backfill leaves a container node itself intact,
rewriting only the children that its own rules address. -/
def sameNodeShape : TfValue → TfValue → Prop
  | .obj a, .obj b => a.map Prod.fst = b.map Prod.fst
  | .list et a, .list et2 b => et = et2 ∧ a.length = b.length
  | .mapV et a, .mapV et2 b => et = et2 ∧ a.map Prod.fst = b.map Prod.fst
  | _, _ => False

/-! ## Lemmas about path walking and the transform driver -/

theorem walkPath_error_ne_nil {v : TfValue} {p r : APath} :
    walkPath v p = .error r → r ≠ [] := by
  induction p generalizing v with
  | nil => intro h; simp [walkPath] at h
  | cons s rest ih =>
    intro h
    simp only [walkPath] at h
    cases hstep : applyStep v s with
    | some v' =>
      rw [hstep] at h
      exact ih h
    | none =>
      rw [hstep] at h
      cases h
      simp

theorem walkPath_ok_iff_lookup {v x : TfValue} {p : APath} :
    walkPath v p = .ok x ↔ lookupPath v p = some x := by
  induction p generalizing v with
  | nil => simp [walkPath, lookupPath]
  | cons s rest ih =>
    simp only [walkPath, lookupPath]
    cases hstep : applyStep v s with
    | some v' => simp [ih]
    | none => simp

theorem transformAttrs_find {f : APath → TfValue → Except String TfValue}
    {p : APath} {attrs attrs' : List (String × TfValue)} {k : String} {v : TfValue} :
    transformAttrs f p attrs = .ok attrs' → assocFind k attrs = some v →
    ∃ v', assocFind k attrs' = some v' ∧
      transform f (p ++ [.attributeName k]) v = .ok v' := by
  induction attrs generalizing attrs' with
  | nil => intro _ hfind; simp [assocFind] at hfind
  | cons hd rest ih =>
    obtain ⟨k1, v1⟩ := hd
    intro htr hfind
    simp only [transformAttrs] at htr
    cases htr1 : transform f (p ++ [.attributeName k1]) v1 with
    | error e => rw [htr1] at htr; cases htr
    | ok v1' =>
      rw [htr1] at htr
      cases htr2 : transformAttrs f p rest with
      | error e => rw [htr2] at htr; cases htr
      | ok rest' =>
        rw [htr2] at htr
        cases htr
        simp only [assocFind] at hfind ⊢
        by_cases hk : k1 = k
        · subst hk
          simp only [if_pos rfl] at hfind ⊢
          cases hfind
          exact ⟨v1', rfl, htr1⟩
        · simp only [if_neg hk] at hfind ⊢
          exact ih htr2 hfind

theorem transformEntries_find {f : APath → TfValue → Except String TfValue}
    {p : APath} {et : TfType} {entries entries' : List (String × TfValue)}
    {k : String} {v : TfValue} :
    transformEntries f p et entries = .ok entries' → assocFind k entries = some v →
    ∃ v', assocFind k entries' = some v' ∧
      transform f (p ++ [.elementKeyString k]) v = .ok v' := by
  induction entries generalizing entries' with
  | nil => intro _ hfind; simp [assocFind] at hfind
  | cons hd rest ih =>
    obtain ⟨k1, v1⟩ := hd
    intro htr hfind
    simp only [transformEntries] at htr
    cases htr1 : transform f (p ++ [.elementKeyString k1]) v1 with
    | error e => rw [htr1] at htr; cases htr
    | ok v1' =>
      rw [htr1] at htr
      cases htr2 : transformEntries f p et rest with
      | error e => rw [htr2] at htr; cases htr
      | ok rest' =>
        rw [htr2] at htr
        cases htr
        simp only [assocFind] at hfind ⊢
        by_cases hk : k1 = k
        · subst hk
          simp only [if_pos rfl] at hfind ⊢
          cases hfind
          exact ⟨v1', rfl, htr1⟩
        · simp only [if_neg hk] at hfind ⊢
          exact ih htr2 hfind

theorem transformElems_nth {f : APath → TfValue → Except String TfValue}
    {p : APath} {i : Nat} {elems elems' : List TfValue} {n : Nat} {v : TfValue} :
    transformElems f p i elems = .ok elems' → nthElem elems n = some v →
    ∃ v', nthElem elems' n = some v' ∧
      transform f (p ++ [.elementKeyInt (Int.ofNat (i + n))]) v = .ok v' := by
  induction elems generalizing elems' i n with
  | nil => intro _ hfind; simp [nthElem] at hfind
  | cons v1 rest ih =>
    intro htr hfind
    simp only [transformElems] at htr
    cases htr1 : transform f (p ++ [.elementKeyInt (Int.ofNat i)]) v1 with
    | error e => rw [htr1] at htr; cases htr
    | ok v1' =>
      rw [htr1] at htr
      cases htr2 : transformElems f p (i + 1) rest with
      | error e => rw [htr2] at htr; cases htr
      | ok rest' =>
        rw [htr2] at htr
        cases htr
        cases n with
        | zero =>
          simp only [nthElem] at hfind ⊢
          cases hfind
          exact ⟨v1', rfl, by simpa using htr1⟩
        | succ m =>
          simp only [nthElem] at hfind ⊢
          obtain ⟨v', hv', htv'⟩ := ih htr2 hfind
          refine ⟨v', hv', ?_⟩
          have : i + 1 + m = i + (m + 1) := by omega
          rw [this] at htv'
          exact htv'

theorem transform_leaf {f : APath → TfValue → Except String TfValue}
    {p : APath} {v : TfValue} (h : v.isKnownContainer = false) :
    transform f p v = f p v := by
  cases v <;> first
    | rfl
    | simp [TfValue.isKnownContainer] at h

theorem transform_lookupPath {f : APath → TfValue → Except String TfValue}
    (hf : ∀ q w, w.isKnownContainer = true → f q w = .ok w) :
    ∀ (q p₀ : APath) (v₀ r₀ v : TfValue),
      transform f p₀ v₀ = .ok r₀ → lookupPath v₀ q = some v →
      ∃ r, lookupPath r₀ q = some r ∧ transform f (p₀ ++ q) v = .ok r := by
  intro q
  induction q with
  | nil =>
    intro p₀ v₀ r₀ v htr hlk
    simp only [lookupPath, Option.some.injEq] at hlk
    subst hlk
    exact ⟨r₀, by simp [lookupPath], by simpa using htr⟩
  | cons s rest ih =>
    intro p₀ v₀ r₀ v htr hlk
    simp only [lookupPath] at hlk
    cases hstep : applyStep v₀ s with
    | none => rw [hstep] at hlk; cases hlk
    | some v₁ =>
      rw [hstep] at hlk
      cases v₀ with
      | obj attrs =>
        cases s with
        | attributeName k =>
          simp only [applyStep] at hstep
          simp only [transform] at htr
          cases htrA : transformAttrs f p₀ attrs with
          | error e => rw [htrA] at htr; cases htr
          | ok attrs' =>
            rw [htrA] at htr
            dsimp only at htr
            rw [hf p₀ (.obj attrs') rfl] at htr
            cases htr
            obtain ⟨v₁', h1, h2⟩ := transformAttrs_find htrA hstep
            obtain ⟨r, hr1, hr2⟩ := ih (p₀ ++ [.attributeName k]) v₁ v₁' v h2 hlk
            refine ⟨r, ?_, ?_⟩
            · simp only [lookupPath, applyStep, h1, hr1]
            · simpa [List.append_assoc] using hr2
        | elementKeyString k => simp [applyStep] at hstep
        | elementKeyInt n => simp [applyStep] at hstep
      | mapV et entries =>
        cases s with
        | elementKeyString k =>
          simp only [applyStep] at hstep
          simp only [transform] at htr
          cases htrA : transformEntries f p₀ et entries with
          | error e => rw [htrA] at htr; cases htr
          | ok entries' =>
            rw [htrA] at htr
            dsimp only at htr
            rw [hf p₀ (.mapV et entries') rfl] at htr
            cases htr
            obtain ⟨v₁', h1, h2⟩ := transformEntries_find htrA hstep
            obtain ⟨r, hr1, hr2⟩ := ih (p₀ ++ [.elementKeyString k]) v₁ v₁' v h2 hlk
            refine ⟨r, ?_, ?_⟩
            · simp only [lookupPath, applyStep, h1, hr1]
            · simpa [List.append_assoc] using hr2
        | attributeName k => simp [applyStep] at hstep
        | elementKeyInt n => simp [applyStep] at hstep
      | list et elems =>
        cases s with
        | elementKeyInt n =>
          simp only [applyStep] at hstep
          by_cases hn : n < 0
          · rw [if_pos hn] at hstep; cases hstep
          · rw [if_neg hn] at hstep
            simp only [transform] at htr
            cases htrA : transformElems f p₀ 0 elems with
            | error e => rw [htrA] at htr; cases htr
            | ok elems' =>
              rw [htrA] at htr
              dsimp only at htr
              rw [hf p₀ (.list et elems') rfl] at htr
              cases htr
              obtain ⟨v₁', h1, h2⟩ := transformElems_nth htrA hstep
              have hcast : Int.ofNat (0 + n.toNat) = n := by
                rw [Nat.zero_add]
                simpa using Int.toNat_of_nonneg (by omega : (0 : Int) ≤ n)
              rw [hcast] at h2
              obtain ⟨r, hr1, hr2⟩ := ih (p₀ ++ [.elementKeyInt n]) v₁ v₁' v h2 hlk
              refine ⟨r, ?_, ?_⟩
              · simp only [lookupPath, applyStep, if_neg hn, h1, hr1]
              · simpa [List.append_assoc] using hr2
        | attributeName k => simp [applyStep] at hstep
        | elementKeyString k => simp [applyStep] at hstep
      | null ty => simp [applyStep] at hstep
      | unknown ty => simp [applyStep] at hstep
      | str s' => simp [applyStep] at hstep
      | num n' => simp [applyStep] at hstep
      | bool b' => simp [applyStep] at hstep

/-! ## Shape lemmas for the engine's branches -/

theorem applyWrite_trace {env : Env} {fy : Option Unit}
    {psv : List (String × TfValue)} {ds : List Diagnostic}
    {tsch : TfType} {gvk : String} {rqObj : Payload}
    {handle : Option String} {rname rnn : String} {trace0 : List StoreOp} :
    (applyWrite env fy psv ds tsch gvk rqObj handle rname rnn trace0).trace = trace0
    ∨ ∃ j, env.marshalJSON rqObj = .ok j ∧
        (applyWrite env fy psv ds tsch gvk rqObj handle rname rnn trace0).trace =
          trace0 ++ [.patch handle rname j] := by
  unfold applyWrite
  cases hj : env.marshalJSON rqObj with
  | error e => left; rfl
  | ok j =>
    right
    refine ⟨j, rfl, ?_⟩
    dsimp only
    cases env.patchOutcome handle rname j with
    | errStructured st => rfl
    | errGeneric m => rfl
    | applied result =>
      dsimp only
      cases env.toTFValue (env.removeServerSideFields result) tsch with
      | error e => rfl
      | ok nro =>
        dsimp only
        cases env.tfTypeFromOpenAPI gvk true with
        | error e => rfl
        | ok wt =>
          dsimp only
          cases (match assocFind "wait_for" psv with
                 | some wf => waitForCompletion (env.waitResult wf handle rname wt)
                 | none => Except.ok ()) with
          | error e => rfl
          | ok u =>
            dsimp only
            cases env.deepUnknown tsch nro with
            | error e => rfl
            | ok compObj =>
              dsimp only
              cases env.newDynamicValue (assocUpsert "object" (unknownToNull compObj) psv) with
              | error e => rfl
              | ok s => rfl

theorem applyWrite_foundry {env : Env} {fy : Option Unit}
    {psv : List (String × TfValue)} {ds : List Diagnostic}
    {tsch : TfType} {gvk : String} {rqObj : Payload}
    {handle : Option String} {rname rnn : String} {trace0 : List StoreOp} :
    (applyWrite env fy psv ds tsch gvk rqObj handle rname rnn trace0).foundry =
      (if (applyWrite env fy psv ds tsch gvk rqObj handle rname rnn trace0).resp.newState.isSome
       then none else fy) := by
  unfold applyWrite
  cases env.marshalJSON rqObj with
  | error e => rfl
  | ok j =>
  dsimp only
  cases env.patchOutcome handle rname j with
  | errStructured st => rfl
  | errGeneric m => rfl
  | applied result =>
  dsimp only
  cases env.toTFValue (env.removeServerSideFields result) tsch with
  | error e => rfl
  | ok nro =>
  dsimp only
  cases env.tfTypeFromOpenAPI gvk true with
  | error e => rfl
  | ok wt =>
  dsimp only
  cases (match assocFind "wait_for" psv with
         | some wf => waitForCompletion (env.waitResult wf handle rname wt)
         | none => Except.ok ()) with
  | error e => rfl
  | ok u =>
  dsimp only
  cases env.deepUnknown tsch nro with
  | error e => rfl
  | ok compObj =>
  dsimp only
  cases env.newDynamicValue (assocUpsert "object" (unknownToNull compObj) psv) with
  | error e => rfl
  | ok s => rfl

theorem applyWrite_no_delete {env : Env} {fy : Option Unit}
    {psv : List (String × TfValue)} {ds : List Diagnostic}
    {tsch : TfType} {gvk : String} {rqObj : Payload}
    {handle : Option String} {rname rnn : String} {trace0 : List StoreOp}
    (h0 : ∀ op ∈ trace0, op.isDelete = false) :
    ∀ op ∈ (applyWrite env fy psv ds tsch gvk rqObj handle rname rnn trace0).trace,
      op.isDelete = false := by
  rcases @applyWrite_trace env fy psv ds tsch gvk rqObj handle rname rnn trace0
    with h | ⟨j, _, h⟩ <;> rw [h]
  · exact h0
  · intro op hop
    rcases List.mem_append.mp hop with h1 | h1
    · exact h0 op h1
    · simp only [List.mem_singleton] at h1
      subst h1
      rfl

theorem applyBranchRun_shape {env : Env} {fy : Option Unit}
    {psv : List (String × TfValue)} {cf : List (String × APath)}
    {ds : List Diagnostic} {pin : Bool} :
    ((applyBranchRun env fy psv cf ds pin).trace = [] ∧
      (applyBranchRun env fy psv cf ds pin).resp.newState = none ∧
      (applyBranchRun env fy psv cf ds pin).foundry = fy)
    ∨ (pin = true ∧ ∃ h n, (applyBranchRun env fy psv cf ds pin).trace = [.get h n] ∧
        (applyBranchRun env fy psv cf ds pin).resp.newState = none ∧
        (applyBranchRun env fy psv cf ds pin).foundry = fy)
    ∨ (∃ tsch gvk rqObj h n rnn,
        applyBranchRun env fy psv cf ds pin =
          applyWrite env fy psv ds tsch gvk rqObj h n rnn
            (if pin then [StoreOp.get h n] else [])) := by
  unfold applyBranchRun
  cases assocFind "object" psv with
  | none => exact Or.inl ⟨rfl, rfl, rfl⟩
  | some obj =>
  try dsimp only
  cases env.gvkFromObject obj with
  | error e => exact Or.inl ⟨rfl, rfl, rfl⟩
  | ok gvk =>
  try dsimp only
  cases env.tfTypeFromOpenAPI gvk false with
  | error e => exact Or.inl ⟨rfl, rfl, rfl⟩
  | ok tsch =>
  try dsimp only
  cases backfillComputedFields cf psv env.valueToType obj with
  | error e => exact Or.inl ⟨rfl, rfl, rfl⟩
  | ok obj2 =>
  try dsimp only
  cases env.fromTFValue (unknownToNull obj2) with
  | error e => exact Or.inl ⟨rfl, rfl, rfl⟩
  | ok pu =>
  try dsimp only
  cases env.gvrFromUnstructured (env.mapRemoveNulls pu) with
  | error e => exact Or.inl ⟨rfl, rfl, rfl⟩
  | ok gvr =>
  try dsimp only
  cases env.isNamespaced gvk with
  | error e => exact Or.inl ⟨rfl, rfl, rfl⟩
  | ok nsb =>
  try dsimp only
  cases pin with
  | false =>
    refine Or.inr (Or.inr ⟨tsch, gvk, env.mapRemoveNulls pu,
      (if nsb then some (env.namespaceOf (env.mapRemoveNulls pu)) else none),
      env.nameOf (env.mapRemoveNulls pu), ?_, ?_⟩)
    · exact env.namespaceOf (env.mapRemoveNulls pu) ++ "/" ++ env.nameOf (env.mapRemoveNulls pu)
    · rfl
  | true =>
    try dsimp only
    unfold createGuard
    cases env.getOutcome
        (if nsb then some (env.namespaceOf (env.mapRemoveNulls pu)) else none)
        (env.nameOf (env.mapRemoveNulls pu)) with
    | found o =>
      exact Or.inr (Or.inl ⟨rfl,
        (if nsb then some (env.namespaceOf (env.mapRemoveNulls pu)) else none),
        env.nameOf (env.mapRemoveNulls pu), rfl, rfl, rfl⟩)
    | errOther m =>
      exact Or.inr (Or.inl ⟨rfl,
        (if nsb then some (env.namespaceOf (env.mapRemoveNulls pu)) else none),
        env.nameOf (env.mapRemoveNulls pu), rfl, rfl, rfl⟩)
    | errNotFound m =>
      refine Or.inr (Or.inr ⟨tsch, gvk, env.mapRemoveNulls pu,
        (if nsb then some (env.namespaceOf (env.mapRemoveNulls pu)) else none),
        env.nameOf (env.mapRemoveNulls pu), ?_, ?_⟩)
      · exact env.namespaceOf (env.mapRemoveNulls pu) ++ "/" ++ env.nameOf (env.mapRemoveNulls pu)
      · rfl

theorem deleteBranchRun_shape {env : Env} {req : ApplyRequest} {fy : Option Unit}
    {ds : List Diagnostic} {qs : TfValue} :
    ((deleteBranchRun env req fy ds qs).trace = [] ∧
      (deleteBranchRun env req fy ds qs).resp.newState = none ∧
      (deleteBranchRun env req fy ds qs).foundry = fy)
    ∨ (∃ h n, (deleteBranchRun env req fy ds qs).trace = [.delete h n] ∧
        (deleteBranchRun env req fy ds qs).resp.newState = none ∧
        (deleteBranchRun env req fy ds qs).foundry = fy)
    ∨ (∃ h n, (deleteBranchRun env req fy ds qs).trace = [.delete h n] ∧
        (deleteBranchRun env req fy ds qs).resp.newState = some req.plannedState ∧
        (deleteBranchRun env req fy ds qs).foundry = none) := by
  unfold deleteBranchRun
  cases tfAsObjMap qs with
  | error e => exact Or.inl ⟨rfl, rfl, rfl⟩
  | ok priorStateVal =>
  try dsimp only
  cases assocFind "object" priorStateVal with
  | none => exact Or.inl ⟨rfl, rfl, rfl⟩
  | some pco =>
  try dsimp only
  cases env.fromTFValue pco with
  | error e => exact Or.inl ⟨rfl, rfl, rfl⟩
  | ok pu =>
  try dsimp only
  cases env.gvrFromUnstructured pu with
  | error e => exact Or.inl ⟨rfl, rfl, rfl⟩
  | ok gvr =>
  try dsimp only
  cases env.gvkFromObject pco with
  | error e => exact Or.inl ⟨rfl, rfl, rfl⟩
  | ok gvk =>
  try dsimp only
  cases env.isNamespaced gvk with
  | error e => exact Or.inl ⟨rfl, rfl, rfl⟩
  | ok nsb =>
  try dsimp only
  cases env.deleteOutcome (if nsb then some (env.namespaceOf pu) else none) (env.nameOf pu) with
  | errNotFound m =>
    exact Or.inr (Or.inl ⟨(if nsb then some (env.namespaceOf pu) else none),
      env.nameOf pu, rfl, rfl, rfl⟩)
  | errOther m =>
    exact Or.inr (Or.inl ⟨(if nsb then some (env.namespaceOf pu) else none),
      env.nameOf pu, rfl, rfl, rfl⟩)
  | deleted =>
    exact Or.inr (Or.inr ⟨(if nsb then some (env.namespaceOf pu) else none),
      env.nameOf pu, rfl, rfl, rfl⟩)

theorem applyBranchRun_foundry {env : Env} {fy : Option Unit}
    {psv : List (String × TfValue)} {cf : List (String × APath)}
    {ds : List Diagnostic} {pin : Bool} :
    (applyBranchRun env fy psv cf ds pin).foundry =
      (if (applyBranchRun env fy psv cf ds pin).resp.newState.isSome
       then none else fy) := by
  rcases @applyBranchRun_shape env fy psv cf ds pin with
    ⟨_, h2, h3⟩ | ⟨_, _, _, _, h2, h3⟩ | ⟨_, _, _, _, _, _, h⟩
  · rw [h2, h3]; rfl
  · rw [h2, h3]; rfl
  · rw [h]; exact applyWrite_foundry

theorem deleteBranchRun_foundry {env : Env} {req : ApplyRequest} {fy : Option Unit}
    {ds : List Diagnostic} {qs : TfValue} :
    (deleteBranchRun env req fy ds qs).foundry =
      (if (deleteBranchRun env req fy ds qs).resp.newState.isSome
       then none else fy) := by
  rcases @deleteBranchRun_shape env req fy ds qs with
    ⟨_, h2, h3⟩ | ⟨_, _, _, h2, h3⟩ | ⟨_, _, _, h2, h3⟩
  · rw [h2, h3]; rfl
  · rw [h2, h3]; rfl
  · rw [h2, h3]; rfl

theorem applyBranchRun_no_delete {env : Env} {fy : Option Unit}
    {psv : List (String × TfValue)} {cf : List (String × APath)}
    {ds : List Diagnostic} {pin : Bool} :
    ∀ op ∈ (applyBranchRun env fy psv cf ds pin).trace, op.isDelete = false := by
  rcases @applyBranchRun_shape env fy psv cf ds pin with
    ⟨h1, _, _⟩ | ⟨_, _, _, h1, _, _⟩ | ⟨_, _, _, h, n, _, heq⟩
  · rw [h1]; intro op hop; cases hop
  · rw [h1]; intro op hop
    simp only [List.mem_singleton] at hop
    subst hop; rfl
  · rw [heq]
    apply applyWrite_no_delete
    intro op hop
    cases pin with
    | true =>
      simp only [if_pos] at hop
      simp only [List.mem_singleton] at hop
      subst hop; rfl
    | false => simp at hop

theorem applyBranchRun_update_all_patch {env : Env} {fy : Option Unit}
    {psv : List (String × TfValue)} {cf : List (String × APath)}
    {ds : List Diagnostic} :
    ∀ op ∈ (applyBranchRun env fy psv cf ds false).trace, op.isPatch = true := by
  rcases @applyBranchRun_shape env fy psv cf ds false with
    ⟨h1, _, _⟩ | ⟨hpin, _⟩ | ⟨_, _, _, h, n, _, heq⟩
  · rw [h1]; intro op hop; cases hop
  · cases hpin
  · rw [heq]
    rcases applyWrite_trace with h1 | ⟨j, _, h1⟩ <;> rw [h1] <;> intro op hop
    · simp at hop
    · simp only [if_neg Bool.false_ne_true, List.nil_append, List.mem_singleton] at hop
      subst hop; rfl

theorem deleteBranchRun_all_delete {env : Env} {req : ApplyRequest} {fy : Option Unit}
    {ds : List Diagnostic} {qs : TfValue} :
    ∀ op ∈ (deleteBranchRun env req fy ds qs).trace, op.isDelete = true := by
  rcases @deleteBranchRun_shape env req fy ds qs with
    ⟨h1, _, _⟩ | ⟨_, _, h1, _, _⟩ | ⟨_, _, h1, _, _⟩ <;> rw [h1] <;> intro op hop
  · cases hop
  · simp only [List.mem_singleton] at hop; subst hop; rfl
  · simp only [List.mem_singleton] at hop; subst hop; rfl

theorem applyResourceChange_cases {env : Env} {req : ApplyRequest} {fy : Option Unit}
    {rt : TfType} {ps qs : TfValue}
    (hrt : env.getResourceType req.typeName = .ok rt)
    (hps : env.unmarshal req.plannedState rt = .ok ps)
    (hqs : env.unmarshal req.priorState rt = .ok qs) :
    ((applyResourceChange env req fy).trace = [] ∧
      (applyResourceChange env req fy).resp.newState = none ∧
      (applyResourceChange env req fy).foundry = fy)
    ∨ (∃ psv cf ds, tfAsObjMap ps = .ok psv ∧
        extractComputedFields env.parseFieldPath psv = (cf, ds) ∧
        (qs.isNull || (!ps.isNull && !qs.isNull)) = true ∧
        applyResourceChange env req fy = applyBranchRun env fy psv cf ds qs.isNull)
    ∨ (∃ psv cf ds, tfAsObjMap ps = .ok psv ∧
        extractComputedFields env.parseFieldPath psv = (cf, ds) ∧
        qs.isNull = false ∧ ps.isNull = true ∧
        applyResourceChange env req fy = deleteBranchRun env req fy ds qs) := by
  unfold applyResourceChange
  by_cases hc : env.canExecuteDiags.length > 0
  · rw [if_pos hc]; exact Or.inl ⟨rfl, rfl, rfl⟩
  · rw [if_neg hc]
    rw [hrt]
    try dsimp only
    rw [hps]
    try dsimp only
    rw [hqs]
    try dsimp only
    cases hAs : tfAsObjMap ps with
    | error e => exact Or.inl ⟨rfl, rfl, rfl⟩
    | ok psv =>
    try dsimp only
    cases hcf : extractComputedFields env.parseFieldPath psv with
    | mk cf ds =>
    try dsimp only
    cases hdc : env.dynamicClient with
    | error e => exact Or.inl ⟨rfl, rfl, rfl⟩
    | ok u =>
    try dsimp only
    cases hrm : env.restMapper with
    | error e => exact Or.inl ⟨rfl, rfl, rfl⟩
    | ok u2 =>
    try dsimp only
    cases hq : qs.isNull with
    | true =>
      refine Or.inr (Or.inl ⟨psv, cf, ds, rfl, hcf, ?_, ?_⟩) <;> simp
    | false =>
      cases hp : ps.isNull with
      | true =>
        refine Or.inr (Or.inr ⟨psv, cf, ds, rfl, hcf, ?_, ?_, ?_⟩) <;> simp
      | false =>
        refine Or.inr (Or.inl ⟨psv, cf, ds, rfl, hcf, ?_, ?_⟩) <;> simp

theorem applyResourceChange_foundry (env : Env) (req : ApplyRequest) (fy : Option Unit) :
    (applyResourceChange env req fy).foundry =
      (if (applyResourceChange env req fy).resp.newState.isSome
       then none else fy) := by
  unfold applyResourceChange
  by_cases hc : env.canExecuteDiags.length > 0
  · rw [if_pos hc]; rfl
  · rw [if_neg hc]
    cases env.getResourceType req.typeName with
    | error e => rfl
    | ok rt =>
    try dsimp only
    cases env.unmarshal req.plannedState rt with
    | error e => rfl
    | ok ps =>
    try dsimp only
    cases env.unmarshal req.priorState rt with
    | error e => rfl
    | ok qs =>
    try dsimp only
    cases tfAsObjMap ps with
    | error e => rfl
    | ok psv =>
    try dsimp only
    cases extractComputedFields env.parseFieldPath psv with
    | mk cf ds =>
    try dsimp only
    cases env.dynamicClient with
    | error e => rfl
    | ok u =>
    try dsimp only
    cases env.restMapper with
    | error e => rfl
    | ok u2 =>
    try dsimp only
    cases hq : qs.isNull with
    | true =>
      simp only [Bool.true_or, if_true]
      exact applyBranchRun_foundry
    | false =>
      cases hp : ps.isNull with
      | true =>
        simp only [Bool.false_or, Bool.not_true, Bool.not_false, Bool.false_and,
          Bool.and_true, if_false]
        exact deleteBranchRun_foundry
      | false =>
        simp only [Bool.false_or, Bool.not_false, Bool.true_and, if_true]
        exact applyBranchRun_foundry

/-! ## Claim theorems -/

/-- Claim C1: `ApplyResourceChange` derives its operation solely from the
nullness of the two unmarshalled states: prior Null with planned non-Null
takes the Create path only (no `Delete` is ever issued); both non-Null
takes the Update path only (every issued operation is the `Patch` write —
no existence-check `Get`, no `Delete`); planned Null with prior non-Null
takes the Delete path only (every issued operation is a `Delete`); and
both Null performs no store I/O at all. -/
theorem c1_state_machine_coverage (env : Env) (req : ApplyRequest) (fy : Option Unit)
    (rt : TfType) (ps qs : TfValue)
    (hrt : env.getResourceType req.typeName = .ok rt)
    (hps : env.unmarshal req.plannedState rt = .ok ps)
    (hqs : env.unmarshal req.priorState rt = .ok qs) :
    (qs.isNull = true → ps.isNull = false →
      ∀ op ∈ (applyResourceChange env req fy).trace, op.isDelete = false)
    ∧ (qs.isNull = false → ps.isNull = false →
      ∀ op ∈ (applyResourceChange env req fy).trace, op.isPatch = true)
    ∧ (qs.isNull = false → ps.isNull = true →
      ∀ op ∈ (applyResourceChange env req fy).trace, op.isDelete = true)
    ∧ (qs.isNull = true → ps.isNull = true →
      (applyResourceChange env req fy).trace = []) := by
  rcases applyResourceChange_cases hrt hps hqs with
    ⟨h1, _, _⟩ | ⟨psv, cf, ds, hAs, hcf, hcond, heq⟩ | ⟨psv, cf, ds, hAs, hcf, hq, hp, heq⟩
  · refine ⟨?_, ?_, ?_, ?_⟩ <;> intro _ _
    · rw [h1]; intro op hop; cases hop
    · rw [h1]; intro op hop; cases hop
    · rw [h1]; intro op hop; cases hop
    · exact h1
  · refine ⟨?_, ?_, ?_, ?_⟩ <;> intro hq' hp'
    · rw [heq]; exact applyBranchRun_no_delete
    · rw [heq, hq']; exact applyBranchRun_update_all_patch
    · rw [hq', hp'] at hcond; simp at hcond
    · cases ps with
      | null ty =>
        have hAs' : tfAsObjMap (.null ty) = .ok ([] : List (String × TfValue)) := rfl
        rw [hAs'] at hAs
        cases hAs
        rw [heq]
        rfl
      | unknown ty => simp [TfValue.isNull] at hp'
      | str s => simp [TfValue.isNull] at hp'
      | num n => simp [TfValue.isNull] at hp'
      | bool b => simp [TfValue.isNull] at hp'
      | obj attrs => simp [TfValue.isNull] at hp'
      | list et elems => simp [TfValue.isNull] at hp'
      | mapV et entries => simp [TfValue.isNull] at hp'
  · refine ⟨?_, ?_, ?_, ?_⟩ <;> intro hq' hp'
    · rw [hq'] at hq; cases hq
    · rw [hp'] at hp; cases hp
    · rw [heq]; exact deleteBranchRun_all_delete
    · rw [hq'] at hq; cases hq

/-- Witness for C1: on a concrete update request against the all-success
environment, the one store operation issued is the `Patch` write. -/
theorem c1_state_machine_coverage_witness :
    (applyResourceChange baseEnv updateReq (some ())).trace =
      [.patch (some "ns") "x" { body := "payload" }] ∧
    StoreOp.isPatch (.patch (some "ns") "x" { body := "payload" }) = true :=
  ⟨by decide,
    (c1_state_machine_coverage baseEnv updateReq (some ())
      rtObjType samplePlanned samplePrior rfl rfl rfl).2.1 rfl rfl
      (.patch (some "ns") "x" { body := "payload" }) (by decide)⟩

/-- Claim C9, counterexample: the claim that the `OAPIFoundry` cache is set
to nil at the end of every `ApplyResourceChange` call regardless of
diagnostics or errors is false: a delete-path call whose store `Delete`
fails returns an error diagnostic through an early `return` that never
reaches the invalidation statement, leaving the cache untouched. -/
theorem c9_cache_invalidation_counterexample :
    (applyResourceChange envDeleteFail deleteReq (some ())).resp.diagnostics ≠ [] ∧
    (applyResourceChange envDeleteFail deleteReq (some ())).foundry ≠ none := by
  constructor <;> decide

/-- Claim C9, amended: the `OAPIFoundry` type-discovery cache is
invalidated (set to nil) exactly on the calls that run to the end of the
switch and report a new state — the successful apply and successful delete
paths; every early return (diagnostics or error, on any path) leaves the
cache unchanged. -/
theorem c9_cache_invalidated_iff_new_state (env : Env) (req : ApplyRequest)
    (fy : Option Unit) :
    (applyResourceChange env req fy).foundry =
      (if (applyResourceChange env req fy).resp.newState.isSome
       then none else fy) :=
  applyResourceChange_foundry env req fy

/-! ## Reduction lemmas: pinning collaborator outcomes -/

theorem applyResourceChange_to_branch {env : Env} {req : ApplyRequest} {fy : Option Unit}
    {rt : TfType} {ps qs : TfValue} {psv : List (String × TfValue)}
    {cf : List (String × APath)} {ds : List Diagnostic}
    (hcan : env.canExecuteDiags = [])
    (hrt : env.getResourceType req.typeName = .ok rt)
    (hps : env.unmarshal req.plannedState rt = .ok ps)
    (hqs : env.unmarshal req.priorState rt = .ok qs)
    (hAs : tfAsObjMap ps = .ok psv)
    (hcf : extractComputedFields env.parseFieldPath psv = (cf, ds))
    (hdc : env.dynamicClient = .ok ())
    (hrm : env.restMapper = .ok ())
    (hcond : (qs.isNull || (!ps.isNull && !qs.isNull)) = true) :
    applyResourceChange env req fy = applyBranchRun env fy psv cf ds qs.isNull := by
  unfold applyResourceChange
  rw [hcan]
  rw [if_neg (by simp)]
  rw [hrt]
  try dsimp only
  rw [hps]
  try dsimp only
  rw [hqs]
  try dsimp only
  rw [hAs]
  try dsimp only
  rw [hcf]
  try dsimp only
  rw [hdc]
  try dsimp only
  rw [hrm]
  try dsimp only
  rw [hcond]
  rw [if_pos rfl]

theorem applyResourceChange_to_delete {env : Env} {req : ApplyRequest} {fy : Option Unit}
    {rt : TfType} {ps qs : TfValue} {psv : List (String × TfValue)}
    {cf : List (String × APath)} {ds : List Diagnostic}
    (hcan : env.canExecuteDiags = [])
    (hrt : env.getResourceType req.typeName = .ok rt)
    (hps : env.unmarshal req.plannedState rt = .ok ps)
    (hqs : env.unmarshal req.priorState rt = .ok qs)
    (hAs : tfAsObjMap ps = .ok psv)
    (hcf : extractComputedFields env.parseFieldPath psv = (cf, ds))
    (hdc : env.dynamicClient = .ok ())
    (hrm : env.restMapper = .ok ())
    (hq : qs.isNull = false)
    (hp : ps.isNull = true) :
    applyResourceChange env req fy = deleteBranchRun env req fy ds qs := by
  unfold applyResourceChange
  rw [hcan]
  rw [if_neg (by simp)]
  rw [hrt]
  try dsimp only
  rw [hps]
  try dsimp only
  rw [hqs]
  try dsimp only
  rw [hAs]
  try dsimp only
  rw [hcf]
  try dsimp only
  rw [hdc]
  try dsimp only
  rw [hrm]
  try dsimp only
  rw [hq, hp]
  rw [if_neg (by simp)]
  rw [if_pos rfl]

theorem applyBranchRun_reduce {env : Env} {fy : Option Unit}
    {psv : List (String × TfValue)} {cf : List (String × APath)}
    {ds : List Diagnostic} {pin : Bool}
    {obj : TfValue} {gvk : String} {tsch : TfType} {obj2 : TfValue}
    {pu rq : Payload} {gvr : String} {nsb : Bool}
    {handle : Option String} {rname rnn : String}
    (hobj : assocFind "object" psv = some obj)
    (hgvk : env.gvkFromObject obj = .ok gvk)
    (htsch : env.tfTypeFromOpenAPI gvk false = .ok tsch)
    (hbf : backfillComputedFields cf psv env.valueToType obj = .ok obj2)
    (hpu : env.fromTFValue (unknownToNull obj2) = .ok pu)
    (hrq : env.mapRemoveNulls pu = rq)
    (hgvr : env.gvrFromUnstructured rq = .ok gvr)
    (hns : env.isNamespaced gvk = .ok nsb)
    (hh : (if nsb then some (env.namespaceOf rq) else none) = handle)
    (hn : env.nameOf rq = rname)
    (hrnn : env.namespaceOf rq ++ "/" ++ rname = rnn) :
    applyBranchRun env fy psv cf ds pin =
      (if pin then createGuard env fy psv ds tsch gvk rq handle rname rnn
       else applyWrite env fy psv ds tsch gvk rq handle rname rnn []) := by
  unfold applyBranchRun
  rw [hobj]
  try dsimp only
  rw [hgvk]
  try dsimp only
  rw [htsch]
  try dsimp only
  rw [hbf]
  try dsimp only
  rw [hpu]
  try dsimp only
  rw [hrq]
  try dsimp only
  rw [hgvr]
  try dsimp only
  rw [hns]
  try dsimp only
  rw [hh, hn, hrnn]

/-- Claim C7: on the Delete path every error from the store's `Delete` call
— the not-found error included — produces an error diagnostic with the
`DELETE resource ... failed:` summary and no new state (not-found is not
treated as success); on success the returned new state is exactly the
request's raw (null) planned state, with no conversion applied. -/
theorem c7_delete_error_handling (env : Env) (req : ApplyRequest) (fy : Option Unit)
    (rt : TfType) (ps qs : TfValue) (psv psv2 : List (String × TfValue))
    (cf : List (String × APath)) (ds : List Diagnostic)
    (pco : TfValue) (pu : Payload) (gvr gvk : String) (nsb : Bool)
    (handle : Option String) (rname : String)
    (hcan : env.canExecuteDiags = [])
    (hrt : env.getResourceType req.typeName = .ok rt)
    (hps : env.unmarshal req.plannedState rt = .ok ps)
    (hqs : env.unmarshal req.priorState rt = .ok qs)
    (hAs : tfAsObjMap ps = .ok psv)
    (hcf : extractComputedFields env.parseFieldPath psv = (cf, ds))
    (hdc : env.dynamicClient = .ok ())
    (hrm : env.restMapper = .ok ())
    (hq : qs.isNull = false)
    (hp : ps.isNull = true)
    (hAs2 : tfAsObjMap qs = .ok psv2)
    (hpco : assocFind "object" psv2 = some pco)
    (hpu : env.fromTFValue pco = .ok pu)
    (hgvr : env.gvrFromUnstructured pu = .ok gvr)
    (hgvk : env.gvkFromObject pco = .ok gvk)
    (hns : env.isNamespaced gvk = .ok nsb)
    (hh : (if nsb then some (env.namespaceOf pu) else none) = handle)
    (hn : env.nameOf pu = rname) :
    (∀ m, env.deleteOutcome handle rname = .errNotFound m →
      (applyResourceChange env req fy).resp.diagnostics =
        ds ++ [errDiag ("DELETE resource " ++ env.namespaceOf pu ++ "/" ++ rname ++ " failed: " ++ m) m] ∧
      (applyResourceChange env req fy).resp.newState = none)
    ∧ (∀ m, env.deleteOutcome handle rname = .errOther m →
      (applyResourceChange env req fy).resp.diagnostics =
        ds ++ [errDiag ("DELETE resource " ++ env.namespaceOf pu ++ "/" ++ rname ++ " failed: " ++ m) m] ∧
      (applyResourceChange env req fy).resp.newState = none)
    ∧ (env.deleteOutcome handle rname = .deleted →
      (applyResourceChange env req fy).resp.newState = some req.plannedState ∧
      (applyResourceChange env req fy).resp.diagnostics = ds ∧
      (applyResourceChange env req fy).trace = [.delete handle rname]) := by
  have hred : applyResourceChange env req fy = deleteBranchRun env req fy ds qs :=
    applyResourceChange_to_delete hcan hrt hps hqs hAs hcf hdc hrm hq hp
  rw [hred]
  unfold deleteBranchRun
  rw [hAs2]
  try dsimp only
  rw [hpco]
  try dsimp only
  rw [hpu]
  try dsimp only
  rw [hgvr]
  try dsimp only
  rw [hgvk]
  try dsimp only
  rw [hns]
  try dsimp only
  rw [hh, hn]
  refine ⟨?_, ?_, ?_⟩
  · intro m hm
    rw [hm]
    exact ⟨rfl, rfl⟩
  · intro m hm
    rw [hm]
    exact ⟨rfl, rfl⟩
  · intro hm
    rw [hm]
    exact ⟨rfl, rfl, rfl⟩

/-- Witness for C7: a concrete successful delete returns the raw null
planned state unchanged, and a concrete failing delete yields the error
diagnostic and no state. -/
theorem c7_delete_error_handling_witness :
    ((applyResourceChange baseEnv deleteReq (some ())).resp.newState =
        some deleteReq.plannedState ∧
      (applyResourceChange baseEnv deleteReq (some ())).resp.diagnostics = [] ∧
      (applyResourceChange baseEnv deleteReq (some ())).trace = [.delete (some "ns") "x"]) ∧
    ((applyResourceChange envDeleteFail deleteReq (some ())).resp.diagnostics =
        [errDiag "DELETE resource ns/x failed: store unavailable" "store unavailable"] ∧
      (applyResourceChange envDeleteFail deleteReq (some ())).resp.newState = none) := by
  constructor
  · exact (c7_delete_error_handling baseEnv deleteReq (some ())
      rtObjType (.null rtObjType) samplePrior [] [("object", samplePriorObj)]
      defaultComputedFields [] samplePriorObj { tag := "payload" }
      "apps/v1/deployments" "apps/v1/Deployment" true (some "ns") "x"
      rfl rfl rfl rfl rfl rfl rfl rfl rfl rfl rfl rfl rfl rfl rfl rfl rfl rfl).2.2 rfl
  · exact (c7_delete_error_handling envDeleteFail deleteReq (some ())
      rtObjType (.null rtObjType) samplePrior [] [("object", samplePriorObj)]
      defaultComputedFields [] samplePriorObj { tag := "payload" }
      "apps/v1/deployments" "apps/v1/Deployment" true (some "ns") "x"
      rfl rfl rfl rfl rfl rfl rfl rfl rfl rfl rfl rfl rfl rfl rfl rfl rfl rfl).2.1
      "store unavailable" rfl

/-- Claim C4: on every Create (prior state Null), the engine issues the
existence-check `Get` before any write: whatever the store answers, the
first traced operation is the `Get`; if the `Get` succeeds the response
carries the conflict diagnostic and no write is performed; if it fails
with a non-not-found error the call aborts with a diagnostic and no
write; and a `Patch` appears in the trace only when the `Get` returned
not-found. -/
theorem c4_create_guard (env : Env) (req : ApplyRequest) (fy : Option Unit)
    (rt : TfType) (ps qs : TfValue) (psv : List (String × TfValue))
    (cf : List (String × APath)) (ds : List Diagnostic)
    (obj : TfValue) (gvk : String) (tsch : TfType) (obj2 : TfValue)
    (pu rq : Payload) (gvr : String) (nsb : Bool)
    (handle : Option String) (rname rnn : String)
    (hcan : env.canExecuteDiags = [])
    (hrt : env.getResourceType req.typeName = .ok rt)
    (hps : env.unmarshal req.plannedState rt = .ok ps)
    (hqs : env.unmarshal req.priorState rt = .ok qs)
    (hAs : tfAsObjMap ps = .ok psv)
    (hcf : extractComputedFields env.parseFieldPath psv = (cf, ds))
    (hdc : env.dynamicClient = .ok ())
    (hrm : env.restMapper = .ok ())
    (hq : qs.isNull = true)
    (hobj : assocFind "object" psv = some obj)
    (hgvk : env.gvkFromObject obj = .ok gvk)
    (htsch : env.tfTypeFromOpenAPI gvk false = .ok tsch)
    (hbf : backfillComputedFields cf psv env.valueToType obj = .ok obj2)
    (hpu : env.fromTFValue (unknownToNull obj2) = .ok pu)
    (hrq : env.mapRemoveNulls pu = rq)
    (hgvr : env.gvrFromUnstructured rq = .ok gvr)
    (hns : env.isNamespaced gvk = .ok nsb)
    (hh : (if nsb then some (env.namespaceOf rq) else none) = handle)
    (hn : env.nameOf rq = rname)
    (hrnn : env.namespaceOf rq ++ "/" ++ rname = rnn) :
    ((applyResourceChange env req fy).trace.head? = some (.get handle rname))
    ∧ (∀ o, env.getOutcome handle rname = .found o →
        (applyResourceChange env req fy).resp.diagnostics =
          ds ++ [errDiag "Cannot create resource that already exists"
            ("resource \"" ++ rnn ++ "\" already exists")] ∧
        (applyResourceChange env req fy).trace = [.get handle rname] ∧
        (applyResourceChange env req fy).resp.newState = none)
    ∧ (∀ m, env.getOutcome handle rname = .errOther m →
        (applyResourceChange env req fy).resp.diagnostics =
          ds ++ [errDiag ("Failed to determine if resource \"" ++ rnn ++ "\" exists") m] ∧
        (applyResourceChange env req fy).trace = [.get handle rname] ∧
        (applyResourceChange env req fy).resp.newState = none)
    ∧ (∀ op ∈ (applyResourceChange env req fy).trace, op.isPatch = true →
        ∃ m, env.getOutcome handle rname = .errNotFound m) := by
  have hred : applyResourceChange env req fy = applyBranchRun env fy psv cf ds qs.isNull :=
    applyResourceChange_to_branch hcan hrt hps hqs hAs hcf hdc hrm (by rw [hq]; simp)
  have hg : applyResourceChange env req fy =
      createGuard env fy psv ds tsch gvk rq handle rname rnn := by
    rw [hred, hq,
      applyBranchRun_reduce hobj hgvk htsch hbf hpu hrq hgvr hns hh hn hrnn,
      if_pos rfl]
  rw [hg]
  unfold createGuard
  cases hgo : env.getOutcome handle rname with
  | found o =>
    dsimp only
    refine ⟨rfl, ?_, ?_, ?_⟩
    · intro o' _
      exact ⟨rfl, rfl, rfl⟩
    · intro m hm
      cases hm
    · intro op hop hpatch
      simp only [List.mem_singleton] at hop
      subst hop
      cases hpatch
  | errOther m =>
    dsimp only
    refine ⟨rfl, ?_, ?_, ?_⟩
    · intro o' hm
      cases hm
    · intro m' hm
      cases hm
      exact ⟨rfl, rfl, rfl⟩
    · intro op hop hpatch
      simp only [List.mem_singleton] at hop
      subst hop
      cases hpatch
  | errNotFound m =>
    dsimp only
    refine ⟨?_, ?_, ?_, ?_⟩
    · rcases @applyWrite_trace env fy psv ds tsch gvk rq handle rname rnn
          [.get handle rname] with h1 | ⟨j, _, h1⟩ <;> rw [h1] <;> rfl
    · intro o' hm
      cases hm
    · intro m' hm
      cases hm
    · intro op _ _
      exact ⟨m, rfl⟩

/-- Witness for C4: a concrete create whose existence check finds the
resource reports the conflict diagnostic, truncates the trace at the
`Get`, and returns no new state. -/
theorem c4_create_guard_witness :
    (applyResourceChange envGetFound createReq (some ())).resp.diagnostics =
      [] ++ [errDiag "Cannot create resource that already exists"
        ("resource \"" ++ "ns/x" ++ "\" already exists")] ∧
    (applyResourceChange envGetFound createReq (some ())).trace = [.get (some "ns") "x"] ∧
    (applyResourceChange envGetFound createReq (some ())).resp.newState = none :=
  (c4_create_guard envGetFound createReq (some ()) rtObjType samplePlanned
    (.null rtObjType) [("object", sampleObj), ("manifest", sampleManifest)]
    defaultComputedFields [] sampleObj "apps/v1/Deployment" rtObjType
    sampleObjBackfilled { tag := "payload" } { tag := "payload" }
    "apps/v1/deployments" true (some "ns") "x" "ns/x"
    rfl rfl rfl rfl rfl rfl rfl rfl rfl rfl rfl rfl rfl rfl rfl rfl rfl rfl rfl rfl).2.1
    { tag := "existing" } rfl

/-- Claim C6: when the server-side-apply `Patch` fails, an error carrying a
structured API status yields the status-derived diagnostics — one per
status cause, each summary taken from the cause (so none uses the generic
fallback summary when no cause message equals it) — while an error without
a structured status yields exactly one generic diagnostic; in both cases
the call terminates without reporting any new state. -/
theorem c6_write_failure_diagnostics (env : Env) (req : ApplyRequest) (fy : Option Unit)
    (rt : TfType) (ps qs : TfValue) (psv : List (String × TfValue))
    (cf : List (String × APath)) (ds : List Diagnostic)
    (obj : TfValue) (gvk : String) (tsch : TfType) (obj2 : TfValue)
    (pu rq : Payload) (gvr : String) (nsb : Bool)
    (handle : Option String) (rname rnn : String) (j : JsonDoc)
    (hcan : env.canExecuteDiags = [])
    (hrt : env.getResourceType req.typeName = .ok rt)
    (hps : env.unmarshal req.plannedState rt = .ok ps)
    (hqs : env.unmarshal req.priorState rt = .ok qs)
    (hAs : tfAsObjMap ps = .ok psv)
    (hcf : extractComputedFields env.parseFieldPath psv = (cf, ds))
    (hdc : env.dynamicClient = .ok ())
    (hrm : env.restMapper = .ok ())
    (hq : qs.isNull = false)
    (hp : ps.isNull = false)
    (hobj : assocFind "object" psv = some obj)
    (hgvk : env.gvkFromObject obj = .ok gvk)
    (htsch : env.tfTypeFromOpenAPI gvk false = .ok tsch)
    (hbf : backfillComputedFields cf psv env.valueToType obj = .ok obj2)
    (hpu : env.fromTFValue (unknownToNull obj2) = .ok pu)
    (hrq : env.mapRemoveNulls pu = rq)
    (hgvr : env.gvrFromUnstructured rq = .ok gvr)
    (hns : env.isNamespaced gvk = .ok nsb)
    (hh : (if nsb then some (env.namespaceOf rq) else none) = handle)
    (hn : env.nameOf rq = rname)
    (hrnn : env.namespaceOf rq ++ "/" ++ rname = rnn)
    (hjson : env.marshalJSON rq = .ok j) :
    (∀ st, env.patchOutcome handle rname j = .errStructured st →
      (applyResourceChange env req fy).resp.diagnostics = ds ++ APIStatusErrorToDiagnostics st ∧
      (APIStatusErrorToDiagnostics st).length = st.causes.length ∧
      (∀ d ∈ APIStatusErrorToDiagnostics st, ∃ c ∈ st.causes, d.summary = c.message) ∧
      ((∀ c ∈ st.causes, c.message ≠ genericPatchSummary rnn) →
        ∀ d ∈ APIStatusErrorToDiagnostics st, d.summary ≠ genericPatchSummary rnn) ∧
      (applyResourceChange env req fy).resp.newState = none)
    ∧ (∀ m, env.patchOutcome handle rname j = .errGeneric m →
      (applyResourceChange env req fy).resp.diagnostics =
        ds ++ [errDiag (genericPatchSummary rnn) m] ∧
      (applyResourceChange env req fy).resp.newState = none) := by
  have hred : applyResourceChange env req fy = applyBranchRun env fy psv cf ds qs.isNull :=
    applyResourceChange_to_branch hcan hrt hps hqs hAs hcf hdc hrm (by rw [hq, hp]; simp)
  have hw : applyResourceChange env req fy =
      applyWrite env fy psv ds tsch gvk rq handle rname rnn [] := by
    rw [hred, hq,
      applyBranchRun_reduce hobj hgvk htsch hbf hpu hrq hgvr hns hh hn hrnn,
      if_neg (by simp)]
  rw [hw]
  unfold applyWrite
  rw [hjson]
  dsimp only
  constructor
  · intro st hst
    rw [hst]
    dsimp only
    refine ⟨rfl, by simp [APIStatusErrorToDiagnostics], ?_, ?_, rfl⟩
    · intro d hd
      simp only [APIStatusErrorToDiagnostics, List.mem_map] at hd
      obtain ⟨c, hc, hdc'⟩ := hd
      exact ⟨c, hc, by rw [← hdc']⟩
    · intro hne d hd
      simp only [APIStatusErrorToDiagnostics, List.mem_map] at hd
      obtain ⟨c, hc, hdc'⟩ := hd
      rw [← hdc']
      exact hne c hc
  · intro m hm
    rw [hm]
    dsimp only
    exact ⟨rfl, rfl⟩

/-- Witness for C6: a concrete write failure with a two-cause structured
status yields exactly the two cause-derived diagnostics, none of them the
generic fallback, and no new state. -/
theorem c6_write_failure_diagnostics_witness :
    (applyResourceChange envPatchStructured updateReq (some ())).resp.diagnostics =
      [] ++ APIStatusErrorToDiagnostics sampleStatus ∧
    (APIStatusErrorToDiagnostics sampleStatus).length = sampleStatus.causes.length ∧
    (∀ d ∈ APIStatusErrorToDiagnostics sampleStatus, d.summary ≠ genericPatchSummary "ns/x") ∧
    (applyResourceChange envPatchStructured updateReq (some ())).resp.newState = none := by
  have h := (c6_write_failure_diagnostics envPatchStructured updateReq (some ())
    rtObjType samplePlanned samplePrior [("object", sampleObj), ("manifest", sampleManifest)]
    defaultComputedFields [] sampleObj "apps/v1/Deployment" rtObjType sampleObjBackfilled
    { tag := "payload" } { tag := "payload" } "apps/v1/deployments" true (some "ns") "x"
    "ns/x" { body := "payload" }
    rfl rfl rfl rfl rfl rfl rfl rfl rfl rfl rfl rfl rfl rfl rfl rfl rfl rfl rfl rfl rfl rfl).1
    sampleStatus rfl
  exact ⟨h.1, h.2.1, h.2.2.2.1 (by decide), h.2.2.2.2⟩

/-- Claim C8: if the planned state declares a completion condition
(`wait_for` present) and the Completion Waiter fails after a successful
write, the call aborts as failed — no new state is returned and no store
operation beyond the already-issued `Patch` is performed (in particular no
rollback delete) — and the returned error is the waiter's message, which
carries the explicit notice that the resource was applied to the store
despite the failure. -/
theorem c8_wait_failure_aborts (env : Env) (req : ApplyRequest) (fy : Option Unit)
    (rt : TfType) (ps qs : TfValue) (psv : List (String × TfValue))
    (cf : List (String × APath)) (ds : List Diagnostic)
    (obj : TfValue) (gvk : String) (tsch : TfType) (obj2 : TfValue)
    (pu rq : Payload) (gvr : String) (nsb : Bool)
    (handle : Option String) (rname rnn : String) (j : JsonDoc)
    (result : Payload) (nro : TfValue) (wt : TfType) (wf : TfValue) (base : String)
    (hcan : env.canExecuteDiags = [])
    (hrt : env.getResourceType req.typeName = .ok rt)
    (hps : env.unmarshal req.plannedState rt = .ok ps)
    (hqs : env.unmarshal req.priorState rt = .ok qs)
    (hAs : tfAsObjMap ps = .ok psv)
    (hcf : extractComputedFields env.parseFieldPath psv = (cf, ds))
    (hdc : env.dynamicClient = .ok ())
    (hrm : env.restMapper = .ok ())
    (hq : qs.isNull = false)
    (hp : ps.isNull = false)
    (hobj : assocFind "object" psv = some obj)
    (hgvk : env.gvkFromObject obj = .ok gvk)
    (htsch : env.tfTypeFromOpenAPI gvk false = .ok tsch)
    (hbf : backfillComputedFields cf psv env.valueToType obj = .ok obj2)
    (hpu : env.fromTFValue (unknownToNull obj2) = .ok pu)
    (hrq : env.mapRemoveNulls pu = rq)
    (hgvr : env.gvrFromUnstructured rq = .ok gvr)
    (hns : env.isNamespaced gvk = .ok nsb)
    (hh : (if nsb then some (env.namespaceOf rq) else none) = handle)
    (hn : env.nameOf rq = rname)
    (hrnn : env.namespaceOf rq ++ "/" ++ rname = rnn)
    (hjson : env.marshalJSON rq = .ok j)
    (hpatch : env.patchOutcome handle rname j = .applied result)
    (htf : env.toTFValue (env.removeServerSideFields result) tsch = .ok nro)
    (hwt : env.tfTypeFromOpenAPI gvk true = .ok wt)
    (hwf : assocFind "wait_for" psv = some wf)
    (hwr : env.waitResult wf handle rname wt = some base) :
    (applyResourceChange env req fy).goErr = some (base ++ waiterExistsNotice) ∧
    (applyResourceChange env req fy).resp.newState = none ∧
    (applyResourceChange env req fy).trace = [.patch handle rname j] := by
  have hred : applyResourceChange env req fy = applyBranchRun env fy psv cf ds qs.isNull :=
    applyResourceChange_to_branch hcan hrt hps hqs hAs hcf hdc hrm (by rw [hq, hp]; simp)
  have hw : applyResourceChange env req fy =
      applyWrite env fy psv ds tsch gvk rq handle rname rnn [] := by
    rw [hred, hq,
      applyBranchRun_reduce hobj hgvk htsch hbf hpu hrq hgvr hns hh hn hrnn,
      if_neg (by simp)]
  rw [hw]
  unfold applyWrite
  rw [hjson]
  dsimp only
  rw [hpatch]
  dsimp only
  rw [htf]
  dsimp only
  rw [hwt]
  dsimp only
  rw [hwf]
  dsimp only
  rw [hwr]
  exact ⟨rfl, rfl, rfl⟩

/-- Witness for C8: a concrete update whose waiter times out returns the
waiter error with the resource-exists notice, no new state, and a trace
that ends at the `Patch`. -/
theorem c8_wait_failure_aborts_witness :
    (applyResourceChange envWaitFail waitReq (some ())).goErr =
      some ("timed out" ++ waiterExistsNotice) ∧
    (applyResourceChange envWaitFail waitReq (some ())).resp.newState = none ∧
    (applyResourceChange envWaitFail waitReq (some ())).trace =
      [.patch (some "ns") "x" { body := "payload" }] :=
  c8_wait_failure_aborts envWaitFail waitReq (some ()) rtObjType samplePlannedWait
    samplePrior [("object", sampleObj), ("manifest", sampleManifest), ("wait_for", .str "rollout")]
    defaultComputedFields [] sampleObj "apps/v1/Deployment" rtObjType sampleObjBackfilled
    { tag := "payload" } { tag := "payload" } "apps/v1/deployments" true (some "ns") "x"
    "ns/x" { body := "payload" } { tag := "result" }
    (.obj [("metadata", .obj [("name", .str "x")])]) .dyn (.str "rollout") "timed out"
    rfl rfl rfl rfl rfl rfl rfl rfl rfl rfl rfl rfl rfl rfl rfl rfl rfl rfl rfl rfl rfl
    rfl rfl rfl rfl rfl rfl

/-- Claim C5: after a successful write, the store's response — with
server-side fields stripped and converted to typed form against `tsch`,
the schema variant fetched with the `false` flag that also typed the write
payload (the spec's "write" variant) — is expanded to an Unknown-filled
shape by `DeepUnknown` against that same `tsch`, and that expansion is
collapsed Unknown→Null to become the `object` attribute of the final
returned state. -/
theorem c5_final_state_pipeline (env : Env) (req : ApplyRequest) (fy : Option Unit)
    (rt : TfType) (ps qs : TfValue) (psv : List (String × TfValue))
    (cf : List (String × APath)) (ds : List Diagnostic)
    (obj : TfValue) (gvk : String) (tsch : TfType) (obj2 : TfValue)
    (pu rq : Payload) (gvr : String) (nsb : Bool)
    (handle : Option String) (rname rnn : String) (j : JsonDoc)
    (result : Payload) (nro : TfValue) (wt : TfType) (compObj : TfValue)
    (dv : DynamicValue)
    (hcan : env.canExecuteDiags = [])
    (hrt : env.getResourceType req.typeName = .ok rt)
    (hps : env.unmarshal req.plannedState rt = .ok ps)
    (hqs : env.unmarshal req.priorState rt = .ok qs)
    (hAs : tfAsObjMap ps = .ok psv)
    (hcf : extractComputedFields env.parseFieldPath psv = (cf, ds))
    (hdc : env.dynamicClient = .ok ())
    (hrm : env.restMapper = .ok ())
    (hq : qs.isNull = false)
    (hp : ps.isNull = false)
    (hobj : assocFind "object" psv = some obj)
    (hgvk : env.gvkFromObject obj = .ok gvk)
    (htsch : env.tfTypeFromOpenAPI gvk false = .ok tsch)
    (hbf : backfillComputedFields cf psv env.valueToType obj = .ok obj2)
    (hpu : env.fromTFValue (unknownToNull obj2) = .ok pu)
    (hrq : env.mapRemoveNulls pu = rq)
    (hgvr : env.gvrFromUnstructured rq = .ok gvr)
    (hns : env.isNamespaced gvk = .ok nsb)
    (hh : (if nsb then some (env.namespaceOf rq) else none) = handle)
    (hn : env.nameOf rq = rname)
    (hrnn : env.namespaceOf rq ++ "/" ++ rname = rnn)
    (hjson : env.marshalJSON rq = .ok j)
    (hpatch : env.patchOutcome handle rname j = .applied result)
    (htf : env.toTFValue (env.removeServerSideFields result) tsch = .ok nro)
    (hwt : env.tfTypeFromOpenAPI gvk true = .ok wt)
    (hwf : assocFind "wait_for" psv = none)
    (hdu : env.deepUnknown tsch nro = .ok compObj)
    (hndv : env.newDynamicValue (assocUpsert "object" (unknownToNull compObj) psv) = .ok dv) :
    (applyResourceChange env req fy).resp.newState = some dv ∧
    (applyResourceChange env req fy).resp.diagnostics = ds ∧
    (applyResourceChange env req fy).goErr = none ∧
    (applyResourceChange env req fy).foundry = none := by
  have hred : applyResourceChange env req fy = applyBranchRun env fy psv cf ds qs.isNull :=
    applyResourceChange_to_branch hcan hrt hps hqs hAs hcf hdc hrm (by rw [hq, hp]; simp)
  have hw : applyResourceChange env req fy =
      applyWrite env fy psv ds tsch gvk rq handle rname rnn [] := by
    rw [hred, hq,
      applyBranchRun_reduce hobj hgvk htsch hbf hpu hrq hgvr hns hh hn hrnn,
      if_neg (by simp)]
  rw [hw]
  unfold applyWrite
  rw [hjson]
  dsimp only
  rw [hpatch]
  dsimp only
  rw [htf]
  dsimp only
  rw [hwt]
  dsimp only
  rw [hwf]
  dsimp only
  rw [hdu]
  dsimp only
  rw [hndv]
  exact ⟨rfl, rfl, rfl, rfl⟩

/-- Witness for C5: a concrete successful update returns the state built
from the collapsed `DeepUnknown` expansion, with no diagnostics, no error,
and an invalidated cache. -/
theorem c5_final_state_pipeline_witness :
    (applyResourceChange baseEnv updateReq (some ())).resp.newState =
      some { raw := "newstate" } ∧
    (applyResourceChange baseEnv updateReq (some ())).resp.diagnostics = [] ∧
    (applyResourceChange baseEnv updateReq (some ())).goErr = none ∧
    (applyResourceChange baseEnv updateReq (some ())).foundry = none :=
  c5_final_state_pipeline baseEnv updateReq (some ()) rtObjType samplePlanned
    samplePrior [("object", sampleObj), ("manifest", sampleManifest)]
    defaultComputedFields [] sampleObj "apps/v1/Deployment" rtObjType sampleObjBackfilled
    { tag := "payload" } { tag := "payload" } "apps/v1/deployments" true (some "ns") "x"
    "ns/x" { body := "payload" } { tag := "result" }
    (.obj [("metadata", .obj [("name", .str "x")])]) .dyn
    (.obj [("metadata", .obj [("name", .str "x")])]) { raw := "newstate" }
    rfl rfl rfl rfl rfl rfl rfl rfl rfl rfl rfl rfl rfl rfl rfl rfl rfl rfl rfl rfl rfl
    rfl rfl rfl rfl rfl rfl rfl

/-- Claim C3, counterexample: the claim that an empty `computed_fields`
list defaults to `metadata.annotations` and `metadata.labels` is false: a
present, known, empty list passes the `!IsNull && IsKnown` guard, runs the
loop zero times, and leaves the computed-field set empty. -/
theorem c3_default_computed_fields_counterexample :
    (extractComputedFields baseEnv.parseFieldPath
        [("computed_fields", TfValue.list .str [])]).1 = [] ∧
    defaultComputedFields ≠ [] := by
  constructor
  · rfl
  · decide

/-- Claim C3, amended: when the `computed_fields` configuration is absent,
null, or unknown, the computed-field set defaults to exactly the two
paths `metadata.annotations` and `metadata.labels`; a present empty list
instead yields an empty set. -/
theorem c3_default_computed_fields (parse : String → Except String APath)
    (psv : List (String × TfValue))
    (h : assocFind "computed_fields" psv = none ∨
      ∃ v, assocFind "computed_fields" psv = some v ∧
        (v.isNull = true ∨ v.isKnown = false)) :
    extractComputedFields parse psv = (defaultComputedFields, []) ∧
    defaultComputedFields =
      [(renderPath [.attributeName "metadata", .attributeName "annotations"],
        [.attributeName "metadata", .attributeName "annotations"]),
       (renderPath [.attributeName "metadata", .attributeName "labels"],
        [.attributeName "metadata", .attributeName "labels"])] := by
  refine ⟨?_, by decide⟩
  unfold extractComputedFields
  rcases h with h | ⟨v, hv, hcase⟩
  · rw [h]
  · rw [hv]
    dsimp only
    rcases hcase with h1 | h1 <;> rw [h1] <;> simp

/-- Witness for C3 (amended): a planned state without `computed_fields`
yields exactly the two default paths. -/
theorem c3_default_computed_fields_witness :
    extractComputedFields baseEnv.parseFieldPath [] = (defaultComputedFields, []) :=
  (c3_default_computed_fields baseEnv.parseFieldPath [] (Or.inl rfl)).1

/-! ## Lemmas about the computed-fields loop -/

theorem hasKey_upsert_self {v : α} {l : List (String × α)} {k : String} :
    hasKey (assocUpsert k v l) k = true := by
  induction l with
  | nil => simp [assocUpsert, hasKey, assocFind]
  | cons hd rest ih =>
    obtain ⟨k', v'⟩ := hd
    by_cases hk : k' = k <;> simp [assocUpsert, hasKey, assocFind, hk] at ih ⊢
    exact ih

theorem hasKey_upsert_mono {v : α} {l : List (String × α)} {k k2 : String}
    (h : hasKey l k = true) : hasKey (assocUpsert k2 v l) k = true := by
  induction l with
  | nil => simp [hasKey, assocFind] at h
  | cons hd rest ih =>
    obtain ⟨k', v'⟩ := hd
    by_cases h2 : k' = k2
    · subst h2
      simp only [assocUpsert, if_pos rfl]
      by_cases hk : k' = k
      · subst hk; simp [hasKey, assocFind]
      · simp only [hasKey, assocFind, if_neg hk] at h ⊢
        exact h
    · simp only [assocUpsert, if_neg h2]
      by_cases hk : k' = k
      · subst hk; simp [hasKey, assocFind]
      · simp only [hasKey, assocFind, if_neg hk] at h ⊢
        exact ih h

theorem cfLoop_ds_extends (parse : String → Except String APath) :
    ∀ (elems : List TfValue) (acc : List (String × APath)) (ds : List Diagnostic),
      ∃ tail, (cfLoop parse elems acc ds).2 = ds ++ tail := by
  intro elems
  induction elems with
  | nil => intro acc ds; exact ⟨[], by simp [cfLoop]⟩
  | cons v rest ih =>
    intro acc ds
    cases hts : tfAsString v with
    | error e =>
      obtain ⟨tail, htail⟩ := ih acc ds
      exact ⟨tail, by simp [cfLoop, hts, htail]⟩
    | ok vs =>
      cases hp : parse vs with
      | error e =>
        obtain ⟨tail, htail⟩ := ih acc
          (ds ++ [errDiag ("[computed_fields] cannot parse filed path element: " ++ vs) e])
        refine ⟨[errDiag ("[computed_fields] cannot parse filed path element: " ++ vs) e] ++ tail, ?_⟩
        simp only [cfLoop, hts, hp, htail, List.append_assoc]
      | ok atp =>
        obtain ⟨tail, htail⟩ := ih (assocUpsert (renderPath atp) atp acc) ds
        exact ⟨tail, by simp [cfLoop, hts, hp, htail]⟩

theorem cfLoop_bad_mem {parse : String → Except String APath} {s e : String}
    (hp : parse s = .error e) :
    ∀ (elems : List TfValue) (acc : List (String × APath)) (ds : List Diagnostic),
      TfValue.str s ∈ elems →
      errDiag ("[computed_fields] cannot parse filed path element: " ++ s) e ∈
        (cfLoop parse elems acc ds).2 := by
  intro elems
  induction elems with
  | nil => intro acc ds h; cases h
  | cons v rest ih =>
    intro acc ds hmem
    rcases List.mem_cons.mp hmem with heq | hmem'
    · subst heq
      have hts : tfAsString (.str s) = .ok s := rfl
      obtain ⟨tail, htail⟩ := cfLoop_ds_extends parse rest acc
        (ds ++ [errDiag ("[computed_fields] cannot parse filed path element: " ++ s) e])
      simp only [cfLoop, hts, hp, htail]
      simp
    · cases hts : tfAsString v with
      | error e2 =>
        simpa [cfLoop, hts] using ih acc ds hmem'
      | ok vs =>
        cases hpv : parse vs with
        | error e2 =>
          simpa [cfLoop, hts, hpv] using ih acc
            (ds ++ [errDiag ("[computed_fields] cannot parse filed path element: " ++ vs) e2]) hmem'
        | ok atp =>
          simpa [cfLoop, hts, hpv] using ih (assocUpsert (renderPath atp) atp acc) ds hmem'

theorem cfLoop_acc_hasKey (parse : String → Except String APath) (k : String) :
    ∀ (elems : List TfValue) (acc : List (String × APath)) (ds : List Diagnostic),
      hasKey acc k = true → hasKey (cfLoop parse elems acc ds).1 k = true := by
  intro elems
  induction elems with
  | nil => intro acc ds h; simpa [cfLoop] using h
  | cons v rest ih =>
    intro acc ds h
    cases hts : tfAsString v with
    | error e => simpa [cfLoop, hts] using ih acc ds h
    | ok vs =>
      cases hpv : parse vs with
      | error e =>
        simpa [cfLoop, hts, hpv] using ih acc
          (ds ++ [errDiag ("[computed_fields] cannot parse filed path element: " ++ vs) e]) h
      | ok atp =>
        simpa [cfLoop, hts, hpv] using
          ih (assocUpsert (renderPath atp) atp acc) ds (hasKey_upsert_mono h)

theorem cfLoop_good_hasKey {parse : String → Except String APath} {s : String} {p : APath}
    (hp : parse s = .ok p) :
    ∀ (elems : List TfValue) (acc : List (String × APath)) (ds : List Diagnostic),
      TfValue.str s ∈ elems →
      hasKey (cfLoop parse elems acc ds).1 (renderPath p) = true := by
  intro elems
  induction elems with
  | nil => intro acc ds h; cases h
  | cons v rest ih =>
    intro acc ds hmem
    rcases List.mem_cons.mp hmem with heq | hmem'
    · subst heq
      have hts : tfAsString (.str s) = .ok s := rfl
      simp only [cfLoop, hts, hp]
      exact cfLoop_acc_hasKey parse (renderPath p) rest _ ds hasKey_upsert_self
    · cases hts : tfAsString v with
      | error e => simpa [cfLoop, hts] using ih acc ds hmem'
      | ok vs =>
        cases hpv : parse vs with
        | error e =>
          simpa [cfLoop, hts, hpv] using ih acc
            (ds ++ [errDiag ("[computed_fields] cannot parse filed path element: " ++ vs) e]) hmem'
        | ok atp =>
          simpa [cfLoop, hts, hpv] using ih (assocUpsert (renderPath atp) atp acc) ds hmem'

theorem applyWrite_success {env : Env} {fy : Option Unit}
    {psv : List (String × TfValue)} {ds : List Diagnostic}
    {tsch : TfType} {gvk : String} {rq : Payload}
    {handle : Option String} {rname rnn : String} {t0 : List StoreOp}
    {j : JsonDoc} {result : Payload} {nro : TfValue} {wt : TfType}
    {compObj : TfValue} {dv : DynamicValue}
    (hjson : env.marshalJSON rq = .ok j)
    (hpatch : env.patchOutcome handle rname j = .applied result)
    (htf : env.toTFValue (env.removeServerSideFields result) tsch = .ok nro)
    (hwt : env.tfTypeFromOpenAPI gvk true = .ok wt)
    (hwf : assocFind "wait_for" psv = none)
    (hdu : env.deepUnknown tsch nro = .ok compObj)
    (hndv : env.newDynamicValue (assocUpsert "object" (unknownToNull compObj) psv) = .ok dv) :
    applyWrite env fy psv ds tsch gvk rq handle rname rnn t0 =
      { resp := { diagnostics := ds, newState := some dv }, goErr := none,
        trace := t0 ++ [.patch handle rname j], foundry := none } := by
  unfold applyWrite
  rw [hjson]
  dsimp only
  rw [hpatch]
  dsimp only
  rw [htf]
  dsimp only
  rw [hwt]
  dsimp only
  rw [hwf]
  dsimp only
  rw [hdu]
  dsimp only
  rw [hndv]

/-- Claim C10: a `computed_fields` entry that fails to parse appends an
error-severity diagnostic but does not abort the call: the remaining
entries are still processed into the computed-field set, and the apply
then proceeds — including the store write — with the error diagnostic
still present in the response. -/
theorem c10_parse_failure_continues (env : Env) (req : ApplyRequest) (fy : Option Unit)
    (rt : TfType) (ps qs : TfValue) (psv : List (String × TfValue))
    (cf : List (String × APath)) (ds : List Diagnostic)
    (obj : TfValue) (gvk : String) (tsch : TfType) (obj2 : TfValue)
    (pu rq : Payload) (gvr : String) (nsb : Bool)
    (handle : Option String) (rname rnn : String) (j : JsonDoc)
    (result : Payload) (nro : TfValue) (wt : TfType) (compObj : TfValue)
    (dv : DynamicValue) (cfv : TfValue) (s e : String)
    (hcan : env.canExecuteDiags = [])
    (hrt : env.getResourceType req.typeName = .ok rt)
    (hps : env.unmarshal req.plannedState rt = .ok ps)
    (hqs : env.unmarshal req.priorState rt = .ok qs)
    (hAs : tfAsObjMap ps = .ok psv)
    (hcf : extractComputedFields env.parseFieldPath psv = (cf, ds))
    (hdc : env.dynamicClient = .ok ())
    (hrm : env.restMapper = .ok ())
    (hq : qs.isNull = false)
    (hp : ps.isNull = false)
    (hobj : assocFind "object" psv = some obj)
    (hgvk : env.gvkFromObject obj = .ok gvk)
    (htsch : env.tfTypeFromOpenAPI gvk false = .ok tsch)
    (hbf : backfillComputedFields cf psv env.valueToType obj = .ok obj2)
    (hpu : env.fromTFValue (unknownToNull obj2) = .ok pu)
    (hrq : env.mapRemoveNulls pu = rq)
    (hgvr : env.gvrFromUnstructured rq = .ok gvr)
    (hns : env.isNamespaced gvk = .ok nsb)
    (hh : (if nsb then some (env.namespaceOf rq) else none) = handle)
    (hn : env.nameOf rq = rname)
    (hrnn : env.namespaceOf rq ++ "/" ++ rname = rnn)
    (hjson : env.marshalJSON rq = .ok j)
    (hpatch : env.patchOutcome handle rname j = .applied result)
    (htf : env.toTFValue (env.removeServerSideFields result) tsch = .ok nro)
    (hwt : env.tfTypeFromOpenAPI gvk true = .ok wt)
    (hwf : assocFind "wait_for" psv = none)
    (hdu : env.deepUnknown tsch nro = .ok compObj)
    (hndv : env.newDynamicValue (assocUpsert "object" (unknownToNull compObj) psv) = .ok dv)
    (hcfv : assocFind "computed_fields" psv = some cfv)
    (hguard : (!cfv.isNull && cfv.isKnown) = true)
    (hbad : TfValue.str s ∈ tfElems cfv)
    (hparse : env.parseFieldPath s = .error e) :
    errDiag ("[computed_fields] cannot parse filed path element: " ++ s) e ∈
      (applyResourceChange env req fy).resp.diagnostics
    ∧ (∀ s2 p2, TfValue.str s2 ∈ tfElems cfv → env.parseFieldPath s2 = .ok p2 →
        hasKey cf (renderPath p2) = true)
    ∧ StoreOp.patch handle rname j ∈ (applyResourceChange env req fy).trace
    ∧ (applyResourceChange env req fy).resp.newState = some dv := by
  have hred : applyResourceChange env req fy = applyBranchRun env fy psv cf ds qs.isNull :=
    applyResourceChange_to_branch hcan hrt hps hqs hAs hcf hdc hrm (by rw [hq, hp]; simp)
  have hres : applyResourceChange env req fy =
      { resp := { diagnostics := ds, newState := some dv }, goErr := none,
        trace := [] ++ [.patch handle rname j], foundry := none } := by
    rw [hred, hq,
      applyBranchRun_reduce hobj hgvk htsch hbf hpu hrq hgvr hns hh hn hrnn,
      if_neg (by simp),
      applyWrite_success hjson hpatch htf hwt hwf hdu hndv]
  have hloop : cfLoop env.parseFieldPath (tfElems cfv) [] [] = (cf, ds) := by
    unfold extractComputedFields at hcf
    rw [hcfv] at hcf
    dsimp only at hcf
    rw [if_pos hguard] at hcf
    exact hcf
  have hfst : (cfLoop env.parseFieldPath (tfElems cfv) [] []).1 = cf := by rw [hloop]
  have hsnd : (cfLoop env.parseFieldPath (tfElems cfv) [] []).2 = ds := by rw [hloop]
  refine ⟨?_, ?_, ?_, ?_⟩
  · rw [hres]
    show errDiag ("[computed_fields] cannot parse filed path element: " ++ s) e ∈ ds
    rw [← hsnd]
    exact cfLoop_bad_mem hparse (tfElems cfv) [] [] hbad
  · intro s2 p2 hm2 hp2
    rw [← hfst]
    exact cfLoop_good_hasKey hp2 (tfElems cfv) [] [] hm2
  · rw [hres]
    simp
  · rw [hres]

/-- Witness for C10: with a concrete `computed_fields` list `["bad",
"good"]` whose first entry fails to parse, the call still reaches the
store write and returns a new state, while the parse-error diagnostic is
in the response and the `good` path is in the computed-field set. -/
theorem c10_parse_failure_continues_witness :
    errDiag ("[computed_fields] cannot parse filed path element: " ++ "bad")
        "invalid field path" ∈
      (applyResourceChange baseEnv cfReq (some ())).resp.diagnostics
    ∧ (∀ s2 p2, TfValue.str s2 ∈ tfElems (.list .str [.str "bad", .str "good"]) →
        baseEnv.parseFieldPath s2 = .ok p2 →
        hasKey [(renderPath [PathStep.attributeName "good"], [PathStep.attributeName "good"])]
          (renderPath p2) = true)
    ∧ StoreOp.patch (some "ns") "x" { body := "payload" } ∈
        (applyResourceChange baseEnv cfReq (some ())).trace
    ∧ (applyResourceChange baseEnv cfReq (some ())).resp.newState =
        some { raw := "newstate" } :=
  c10_parse_failure_continues baseEnv cfReq (some ()) rtObjType samplePlannedCF
    samplePrior
    [("object", sampleObj), ("manifest", sampleManifest),
      ("computed_fields", .list .str [.str "bad", .str "good"])]
    [(renderPath [PathStep.attributeName "good"], [PathStep.attributeName "good"])]
    [errDiag ("[computed_fields] cannot parse filed path element: " ++ "bad") "invalid field path"]
    sampleObj "apps/v1/Deployment" rtObjType sampleObj
    { tag := "payload" } { tag := "payload" } "apps/v1/deployments" true (some "ns") "x"
    "ns/x" { body := "payload" } { tag := "result" }
    (.obj [("metadata", .obj [("name", .str "x")])]) .dyn
    (.obj [("metadata", .obj [("name", .str "x")])]) { raw := "newstate" }
    (.list .str [.str "bad", .str "good"]) "bad" "invalid field path"
    rfl rfl rfl rfl rfl rfl rfl rfl rfl rfl rfl rfl rfl rfl rfl rfl rfl rfl rfl rfl rfl
    rfl rfl rfl rfl rfl rfl rfl rfl rfl (List.mem_cons_self _ _) rfl

/-! ## Lemmas about the backfill callback -/

theorem backfillCallback_container (cf : List (String × APath)) (man : TfValue)
    (co : TfValue → TfType → Except String TfValue) :
    ∀ q w, w.isKnownContainer = true → backfillCallback cf man co q w = .ok w := by
  intro q w hw
  have hk : w.isKnown = true := by
    cases w <;> first | rfl | simp [TfValue.isKnownContainer] at hw
  by_cases h : hasKey cf (renderPath q) = true <;> simp [backfillCallback, h, hk]

theorem backfill_lookup_leaf {cf : List (String × APath)}
    {psv : List (String × TfValue)}
    {coerce : TfValue → TfType → Except String TfValue} {obj res : TfValue}
    {q : APath} {v : TfValue}
    (hbf : backfillComputedFields cf psv coerce obj = .ok res)
    (hlk : lookupPath obj q = some v) (hleaf : v.isKnownContainer = false) :
    ∃ r, lookupPath res q = some r ∧
      backfillCallback cf (manifestOf psv) coerce q v = .ok r := by
  unfold backfillComputedFields at hbf
  obtain ⟨r, h1, h2⟩ :=
    transform_lookupPath (backfillCallback_container cf (manifestOf psv) coerce)
      q [] obj res v hbf hlk
  rw [List.nil_append] at h2
  rw [transform_leaf hleaf] at h2
  exact ⟨r, h1, h2⟩

theorem transformAttrs_keys {f : APath → TfValue → Except String TfValue}
    {p : APath} {attrs attrs' : List (String × TfValue)} :
    transformAttrs f p attrs = .ok attrs' →
    attrs.map Prod.fst = attrs'.map Prod.fst := by
  induction attrs generalizing attrs' with
  | nil => intro h; cases h; rfl
  | cons hd rest ih =>
    obtain ⟨k, v⟩ := hd
    intro h
    simp only [transformAttrs] at h
    cases h1 : transform f (p ++ [.attributeName k]) v with
    | error e => rw [h1] at h; cases h
    | ok v' =>
      rw [h1] at h
      cases h2 : transformAttrs f p rest with
      | error e => rw [h2] at h; cases h
      | ok rest' =>
        rw [h2] at h
        cases h
        simp only [List.map_cons]
        rw [ih h2]

theorem transformEntries_keys {f : APath → TfValue → Except String TfValue}
    {p : APath} {et : TfType} {entries entries' : List (String × TfValue)} :
    transformEntries f p et entries = .ok entries' →
    entries.map Prod.fst = entries'.map Prod.fst := by
  induction entries generalizing entries' with
  | nil => intro h; cases h; rfl
  | cons hd rest ih =>
    obtain ⟨k, v⟩ := hd
    intro h
    simp only [transformEntries] at h
    cases h1 : transform f (p ++ [.elementKeyString k]) v with
    | error e => rw [h1] at h; cases h
    | ok v' =>
      rw [h1] at h
      cases h2 : transformEntries f p et rest with
      | error e => rw [h2] at h; cases h
      | ok rest' =>
        rw [h2] at h
        cases h
        simp only [List.map_cons]
        rw [ih h2]

theorem transformElems_length {f : APath → TfValue → Except String TfValue}
    {p : APath} {i : Nat} {elems elems' : List TfValue} :
    transformElems f p i elems = .ok elems' → elems.length = elems'.length := by
  induction elems generalizing elems' i with
  | nil => intro h; cases h; rfl
  | cons v rest ih =>
    intro h
    simp only [transformElems] at h
    cases h1 : transform f (p ++ [.elementKeyInt (Int.ofNat i)]) v with
    | error e => rw [h1] at h; cases h
    | ok v' =>
      rw [h1] at h
      cases h2 : transformElems f p (i + 1) rest with
      | error e => rw [h2] at h; cases h
      | ok rest' =>
        rw [h2] at h
        cases h
        simp only [List.length_cons]
        rw [ih h2]

theorem backfill_lookup_container {cf : List (String × APath)}
    {psv : List (String × TfValue)}
    {coerce : TfValue → TfType → Except String TfValue} {obj res : TfValue}
    {q : APath} {v : TfValue}
    (hbf : backfillComputedFields cf psv coerce obj = .ok res)
    (hlk : lookupPath obj q = some v) (hcont : v.isKnownContainer = true) :
    ∃ v', lookupPath res q = some v' ∧ sameNodeShape v v' := by
  unfold backfillComputedFields at hbf
  obtain ⟨r, h1, h2⟩ :=
    transform_lookupPath (backfillCallback_container cf (manifestOf psv) coerce)
      q [] obj res v hbf hlk
  refine ⟨r, h1, ?_⟩
  cases v with
  | obj attrs =>
    simp only [transform] at h2
    cases hA : transformAttrs (backfillCallback cf (manifestOf psv) coerce)
        ([] ++ q) attrs with
    | error e => rw [hA] at h2; cases h2
    | ok attrs' =>
      rw [hA] at h2
      dsimp only at h2
      rw [backfillCallback_container cf (manifestOf psv) coerce ([] ++ q)
        (.obj attrs') rfl] at h2
      cases h2
      exact transformAttrs_keys hA
  | list et elems =>
    simp only [transform] at h2
    cases hA : transformElems (backfillCallback cf (manifestOf psv) coerce)
        ([] ++ q) 0 elems with
    | error e => rw [hA] at h2; cases h2
    | ok elems' =>
      rw [hA] at h2
      dsimp only at h2
      rw [backfillCallback_container cf (manifestOf psv) coerce ([] ++ q)
        (.list et elems') rfl] at h2
      cases h2
      exact ⟨rfl, transformElems_length hA⟩
  | mapV et entries =>
    simp only [transform] at h2
    cases hA : transformEntries (backfillCallback cf (manifestOf psv) coerce)
        ([] ++ q) et entries with
    | error e => rw [hA] at h2; cases h2
    | ok entries' =>
      rw [hA] at h2
      dsimp only at h2
      rw [backfillCallback_container cf (manifestOf psv) coerce ([] ++ q)
        (.mapV et entries') rfl] at h2
      cases h2
      exact ⟨rfl, transformEntries_keys hA⟩
  | null ty => simp [TfValue.isKnownContainer] at hcont
  | unknown ty => simp [TfValue.isKnownContainer] at hcont
  | str s => simp [TfValue.isKnownContainer] at hcont
  | num n => simp [TfValue.isKnownContainer] at hcont
  | bool b => simp [TfValue.isKnownContainer] at hcont

/-- Claim C2: the computed-field backfill transform satisfies, position by
position over the planned `object` tree: a position whose path is not in
the computed-field set, or whose planned value is already Known, keeps its
value (a Known container keeps its node shape, its children being governed
by their own positions); an Unknown value at a computed path whose walk into the manifest
fails stays Unknown; an Unknown value at a computed path present in the
manifest is replaced by the manifest value coerced to the position's type;
a failing coercion makes the whole transform fail, and a failing transform
aborts the apply with the backfill diagnostic before any store I/O. -/
theorem c2_backfill_transform (env : Env) (req : ApplyRequest) (fy : Option Unit)
    (rt : TfType) (ps qs : TfValue) (psv : List (String × TfValue))
    (cf : List (String × APath)) (ds : List Diagnostic)
    (obj : TfValue) (gvk : String) (tsch : TfType)
    (hcan : env.canExecuteDiags = [])
    (hrt : env.getResourceType req.typeName = .ok rt)
    (hps : env.unmarshal req.plannedState rt = .ok ps)
    (hqs : env.unmarshal req.priorState rt = .ok qs)
    (hAs : tfAsObjMap ps = .ok psv)
    (hcf : extractComputedFields env.parseFieldPath psv = (cf, ds))
    (hdc : env.dynamicClient = .ok ())
    (hrm : env.restMapper = .ok ())
    (hcond : (qs.isNull || (!ps.isNull && !qs.isNull)) = true)
    (hobj : assocFind "object" psv = some obj)
    (hgvk : env.gvkFromObject obj = .ok gvk)
    (htsch : env.tfTypeFromOpenAPI gvk false = .ok tsch) :
    (∀ res q v, backfillComputedFields cf psv env.valueToType obj = .ok res →
      lookupPath obj q = some v → v.isKnownContainer = false →
      (hasKey cf (renderPath q) = false ∨ v.isKnown = true) →
      lookupPath res q = some v)
    ∧ (∀ res q v, backfillComputedFields cf psv env.valueToType obj = .ok res →
      lookupPath obj q = some v → v.isKnownContainer = true →
      ∃ v', lookupPath res q = some v' ∧ sameNodeShape v v')
    ∧ (∀ res q ty rp, backfillComputedFields cf psv env.valueToType obj = .ok res →
      lookupPath obj q = some (.unknown ty) →
      hasKey cf (renderPath q) = true →
      walkPath (manifestOf psv) q = .error rp →
      lookupPath res q = some (.unknown ty))
    ∧ (∀ res q ty x nv, backfillComputedFields cf psv env.valueToType obj = .ok res →
      lookupPath obj q = some (.unknown ty) →
      hasKey cf (renderPath q) = true →
      walkPath (manifestOf psv) q = .ok x →
      env.valueToType x ty = .ok nv →
      lookupPath res q = some nv)
    ∧ (∀ q ty x e, lookupPath obj q = some (.unknown ty) →
      hasKey cf (renderPath q) = true →
      walkPath (manifestOf psv) q = .ok x →
      env.valueToType x ty = .error e →
      ∀ res, ¬ backfillComputedFields cf psv env.valueToType obj = .ok res)
    ∧ (∀ e, backfillComputedFields cf psv env.valueToType obj = .error e →
      (applyResourceChange env req fy).trace = [] ∧
      (applyResourceChange env req fy).resp.newState = none ∧
      errDiag "Failed to backfill computed values in proposed object" e ∈
        (applyResourceChange env req fy).resp.diagnostics) := by
  refine ⟨?_, ?_, ?_, ?_, ?_, ?_⟩
  · intro res q v hbf hlk hleaf hcase
    obtain ⟨r, h1, h2⟩ := backfill_lookup_leaf hbf hlk hleaf
    rcases hcase with hnk | hk
    · simp only [backfillCallback, hnk] at h2
      simp at h2
      rw [h1, h2]
    · simp only [backfillCallback, hk, if_true] at h2
      simp at h2
      rw [h1, h2]
  · intro res q v hbf hlk hcont
    exact backfill_lookup_container hbf hlk hcont
  · intro res q ty rp hbf hlk hkey hwalk
    obtain ⟨r, h1, h2⟩ := backfill_lookup_leaf hbf hlk rfl
    have hlen : 0 < rp.length := List.length_pos.mpr (walkPath_error_ne_nil hwalk)
    simp only [backfillCallback, hkey, TfValue.isKnown, hwalk, if_true] at h2
    rw [if_pos hlen] at h2
    simp at h2
    rw [h1, h2]
  · intro res q ty x nv hbf hlk hkey hwalk hco
    obtain ⟨r, h1, h2⟩ := backfill_lookup_leaf hbf hlk rfl
    simp only [backfillCallback, hkey, TfValue.isKnown, hwalk, TfValue.type, hco,
      if_true] at h2
    simp at h2
    rw [h1, h2]
  · intro q ty x e hlk hkey hwalk hco res hbf
    obtain ⟨r, h1, h2⟩ := backfill_lookup_leaf hbf hlk rfl
    simp only [backfillCallback, hkey, TfValue.isKnown, hwalk, TfValue.type, hco,
      if_true] at h2
    simp at h2
  · intro e hbfe
    have hred : applyResourceChange env req fy = applyBranchRun env fy psv cf ds qs.isNull :=
      applyResourceChange_to_branch hcan hrt hps hqs hAs hcf hdc hrm hcond
    rw [hred]
    unfold applyBranchRun
    rw [hobj]
    dsimp only
    rw [hgvk]
    dsimp only
    rw [htsch]
    dsimp only
    rw [hbfe]
    dsimp only
    refine ⟨rfl, rfl, ?_⟩
    simp

/-- Witness for C2: on the concrete update scenario, the Unknown computed
`metadata.annotations` is backfilled with the manifest's map, while the
Known non-computed `metadata.name` is left unchanged. -/
theorem c2_backfill_transform_witness :
    lookupPath sampleObjBackfilled
        [.attributeName "metadata", .attributeName "annotations"] =
      some (.mapV .str [("a", .str "1")]) ∧
    lookupPath sampleObjBackfilled
        [.attributeName "metadata", .attributeName "name"] = some (.str "x") := by
  have h := c2_backfill_transform baseEnv updateReq (some ()) rtObjType samplePlanned
    samplePrior [("object", sampleObj), ("manifest", sampleManifest)]
    defaultComputedFields [] sampleObj "apps/v1/Deployment" rtObjType
    rfl rfl rfl rfl rfl rfl rfl rfl rfl rfl rfl rfl
  constructor
  · exact h.2.2.2.1 sampleObjBackfilled
      [.attributeName "metadata", .attributeName "annotations"]
      (.mapT .str) (.mapV .str [("a", .str "1")]) (.mapV .str [("a", .str "1")])
      rfl rfl rfl rfl rfl
  · exact h.1 sampleObjBackfilled
      [.attributeName "metadata", .attributeName "name"] (.str "x")
      rfl rfl rfl (Or.inr rfl)
